import Mathlib

/-!
Verification of the trading core of the AI-based-quant repository.

The Python source is shallowly embedded: Python floats are modelled as
rationals (ℚ), Python dicts that preserve insertion order are modelled as
association lists, fallible code returns `Except PyErr` or is paired with
`Option PyErr`, and external effects (gateway responses, random draws,
wall-clock reads, the irrational square root used by rolling standard
deviations) are passed in as explicit oracle parameters.
-/

namespace AQ

set_option maxRecDepth 2000

/-- Python runtime exceptions that the embedded code can raise. -/
inductive PyErr
  | runtimeError        -- RuntimeError (for example: dictionary changed size during iteration)
  | unboundLocalError   -- UnboundLocalError (local variable referenced before assignment)
  | zeroDivisionError   -- ZeroDivisionError
  | indexError          -- IndexError
  | typeError           -- TypeError
deriving DecidableEq, Repr

/-- Lookup in an insertion-ordered association list, modelling `d[k]` / `k in d`
on a Python dict. -/
def alookup {α : Type} (m : List (String × α)) (k : String) : Option α :=
  match m with
  | [] => none
  | (k', v) :: rest => if k' = k then some v else alookup rest k

/-- In-place overwrite of the value stored under an existing key, modelling the
mutation of an object held in a Python dict (entry order is preserved). -/
def aupdate {α : Type} (m : List (String × α)) (k : String) (v : α) :
    List (String × α) :=
  match m with
  | [] => []
  | (k', w) :: rest =>
    if k' = k then (k, v) :: aupdate rest k v else (k', w) :: aupdate rest k v

/-- Deletion of a key, modelling `del d[k]` (keys are unique in all states we
build, so removing the first match is exact). -/
def aerase {α : Type} (m : List (String × α)) (k : String) : List (String × α) :=
  match m with
  | [] => []
  | (k', v) :: rest => if k' = k then rest else (k', v) :: aerase rest k

/- ========== EXECUTION ENGINE (src/app/services/execution_engine.py) ========== -/

/-- Order types, from `class OrderType(Enum)`. -/
inductive OrderType
  | MARKET_BUY | MARKET_SELL | LIMIT_BUY | LIMIT_SELL | STOP_BUY | STOP_SELL
deriving DecidableEq, Repr

/-- Order statuses, from `class OrderStatus(Enum)`. -/
inductive OrderStatus
  | PENDING | FILLED | PARTIALLY_FILLED | CANCELLED | REJECTED
deriving DecidableEq, Repr

/-- The `Order` dataclass.  `datetime` fields are modelled as rational
timestamps supplied by the caller. -/
structure Order where
  id : String
  symbol : String
  order_type : OrderType
  side : String
  quantity : ℚ
  price : ℚ
  stop_loss : ℚ
  take_profit : ℚ
  status : OrderStatus
  filled_price : Option ℚ
  filled_quantity : ℚ
  created_at : ℚ
  filled_at : Option ℚ
  pnl : ℚ
deriving DecidableEq, Repr

/-- The `Position` dataclass. -/
structure Position where
  symbol : String
  side : String
  quantity : ℚ
  entry_price : ℚ
  current_price : ℚ
  stop_loss : ℚ
  take_profit : ℚ
  unrealized_pnl : ℚ
  realized_pnl : ℚ
  opened_at : ℚ
deriving DecidableEq, Repr

/-- The mutable state of `class ExecutionEngine`. -/
structure ExecutionEngine where
  paper_trading : Bool
  mt5_connected : Bool
  orders : List (String × Order)
  positions : List (String × Position)
  trade_history : List Order
  order_counter : ℕ
  paper_balance : ℚ
  paper_equity : ℚ
deriving DecidableEq, Repr

/-- `ExecutionEngine.close_position(symbol, current_price)`: returns the new
engine state and the realized pnl (`None` when no position is open for the
symbol). -/
def close_position (eng : ExecutionEngine) (symbol : String) (current_price : ℚ) :
    ExecutionEngine × Option ℚ :=
  match alookup eng.positions symbol with
  | none => (eng, none)
  | some pos =>
    let pnl : ℚ :=
      if pos.side = "BUY" then (current_price - pos.entry_price) * pos.quantity
      else (pos.entry_price - current_price) * pos.quantity
    let eng1 :=
      if eng.paper_trading then
        { eng with paper_balance := eng.paper_balance + pnl,
                   paper_equity := eng.paper_balance + pnl }
      else eng
    ({ eng1 with positions := aerase eng1.positions symbol }, some pnl)

/-- Loop body of `ExecutionEngine.update_positions`.  The source iterates
`self.positions.items()` and `close_position` deletes from that same dict;
CPython dict iterators compare the dict size captured at iterator creation
against the current size on every `next()` call (including the final one) and
raise `RuntimeError: dictionary changed size during iteration` on mismatch.
`items` is the entry list at loop entry and `changed` records whether a
deletion has happened so far. -/
def update_positions_loop (prices : List (String × ℚ))
    (items : List (String × Position)) (eng : ExecutionEngine)
    (total_unrealized : ℚ) (changed : Bool) : ExecutionEngine × Option PyErr :=
  match items with
  | [] =>
    if changed then (eng, some PyErr.runtimeError)
    else ({ eng with paper_equity := eng.paper_balance + total_unrealized }, none)
  | (symbol, pos) :: rest =>
    if changed then (eng, some PyErr.runtimeError)
    else
      match alookup prices symbol with
      | none => update_positions_loop prices rest eng total_unrealized changed
      | some price =>
        let pnl : ℚ :=
          if pos.side = "BUY" then (price - pos.entry_price) * pos.quantity
          else (pos.entry_price - price) * pos.quantity
        let pos1 := { pos with current_price := price, unrealized_pnl := pnl }
        let eng1 := { eng with positions := aupdate eng.positions symbol pos1 }
        let total1 := total_unrealized + pnl
        if (if pos1.side = "BUY" then price ≤ pos1.stop_loss ∨ pos1.take_profit ≤ price
            else pos1.stop_loss ≤ price ∨ price ≤ pos1.take_profit) then
          let closed := close_position eng1 symbol price
          update_positions_loop prices rest closed.1 total1 true
        else
          update_positions_loop prices rest eng1 total1 changed

/-- `ExecutionEngine.update_positions(prices)`.  Returns the engine state after
all mutations that happened before the function returned or raised, paired with
the exception (if any) that escaped it. -/
def update_positions (eng : ExecutionEngine) (prices : List (String × ℚ)) :
    ExecutionEngine × Option PyErr :=
  update_positions_loop prices eng.positions eng 0 false

/-- `ExecutionEngine._execute_paper_order(order)`.  `slip_sign` is the draw of
`np.random.choice([-1, 1])` and `now` the fill timestamp. -/
def execute_paper_order (eng : ExecutionEngine) (order : Order)
    (slip_sign : ℚ) (now : ℚ) : ExecutionEngine × Order :=
  let slippage := order.price * (1/10000) * slip_sign
  let fill_price := order.price + slippage
  let order1 := { order with status := OrderStatus.FILLED,
                             filled_price := some fill_price,
                             filled_quantity := order.quantity,
                             filled_at := some now }
  let eng1 :=
    match alookup eng.positions order1.symbol with
    | some pos =>
      -- Add to existing position: quantity summed, entry price averaged.
      let pos1 := { pos with quantity := pos.quantity + order1.quantity,
                             entry_price := (pos.entry_price + fill_price) / 2 }
      { eng with positions := aupdate eng.positions order1.symbol pos1 }
    | none =>
      { eng with positions := eng.positions ++
          [(order1.symbol,
            ({ symbol := order1.symbol, side := order1.side,
               quantity := order1.quantity, entry_price := fill_price,
               current_price := fill_price, stop_loss := order1.stop_loss,
               take_profit := order1.take_profit, unrealized_pnl := 0,
               realized_pnl := 0, opened_at := now } : Position))] }
  -- The Python order object is aliased from `self.orders`; re-storing the
  -- updated order models that in-place mutation.
  ({ eng1 with orders := aupdate eng1.orders order1.id order1,
               trade_history := eng1.trade_history ++ [order1] }, order1)

/-- `ExecutionEngine._execute_mt5_order(order)`.  The gateway response is an
oracle: `some p` models `TRADE_RETCODE_DONE` with fill price `p`, `none`
models a rejection or an exception from `mt5.order_send`. -/
def execute_mt5_order (eng : ExecutionEngine) (order : Order)
    (gateway_fill : Option ℚ) (now : ℚ) : ExecutionEngine × Order :=
  if ¬ eng.mt5_connected then
    let order1 : Order := { order with status := OrderStatus.REJECTED }
    ({ eng with orders := aupdate eng.orders order1.id order1 }, order1)
  else
    match gateway_fill with
    | some p =>
      let order1 : Order := { order with status := OrderStatus.FILLED,
                                          filled_price := some p,
                                          filled_quantity := order.quantity,
                                          filled_at := some now }
      ({ eng with orders := aupdate eng.orders order1.id order1 }, order1)
    | none =>
      let order1 : Order := { order with status := OrderStatus.REJECTED }
      ({ eng with orders := aupdate eng.orders order1.id order1 }, order1)

/-- `ExecutionEngine.place_order(...)`.  `now_str` is the timestamp used in the
generated order id. -/
def place_order (eng : ExecutionEngine) (symbol side : String)
    (quantity price stop_loss take_profit : ℚ) (order_type : OrderType)
    (slip_sign : ℚ) (gateway_fill : Option ℚ) (now : ℚ) (now_str : String) :
    ExecutionEngine × Order :=
  let counter := eng.order_counter + 1
  let order_id := "ORD_" ++ now_str ++ "_" ++ toString counter
  let order : Order :=
    { id := order_id, symbol := symbol, order_type := order_type, side := side,
      quantity := quantity, price := price, stop_loss := stop_loss,
      take_profit := take_profit, status := OrderStatus.PENDING,
      filled_price := none, filled_quantity := 0, created_at := now,
      filled_at := none, pnl := 0 }
  let eng1 := { eng with order_counter := counter,
                         orders := eng.orders ++ [(order_id, order)] }
  if eng1.paper_trading then execute_paper_order eng1 order slip_sign now
  else execute_mt5_order eng1 order gateway_fill now

/- ---------- Concrete states for the C1 evidence ---------- -/

/-- Open BUY position on EURUSD whose stop (1.09) is crossed by price 1.08. -/
def posC1a : Position :=
  { symbol := "EURUSD", side := "BUY", quantity := 1, entry_price := 11/10,
    current_price := 11/10, stop_loss := 109/100, take_profit := 112/100,
    unrealized_pnl := 0, realized_pnl := 0, opened_at := 0 }

/-- Open BUY position on GBPUSD whose stop (1.29) is crossed by price 1.25. -/
def posC1b : Position :=
  { symbol := "GBPUSD", side := "BUY", quantity := 2, entry_price := 13/10,
    current_price := 13/10, stop_loss := 129/100, take_profit := 132/100,
    unrealized_pnl := 0, realized_pnl := 0, opened_at := 0 }

/-- Paper engine holding the two positions above. -/
def engC1 : ExecutionEngine :=
  { paper_trading := true, mt5_connected := false, orders := [],
    positions := [("EURUSD", posC1a), ("GBPUSD", posC1b)],
    trade_history := [], order_counter := 0,
    paper_balance := 10000, paper_equity := 10000 }

/-- Price map in which both positions have crossed their stops. -/
def pricesC1 : List (String × ℚ) := [("EURUSD", 108/100), ("GBPUSD", 125/100)]

/-- Open BUY position used by the C9 witness. -/
def posC9 : Position :=
  { symbol := "EURUSD", side := "BUY", quantity := 1, entry_price := 1,
    current_price := 1, stop_loss := 9/10, take_profit := 6/5,
    unrealized_pnl := 0, realized_pnl := 0, opened_at := 0 }

/-- Engine with one EURUSD position, used as the C9 witness state. -/
def engC9 : ExecutionEngine :=
  { paper_trading := true, mt5_connected := false, orders := [],
    positions := [("EURUSD", posC9)],
    trade_history := [], order_counter := 1,
    paper_balance := 10000, paper_equity := 10000 }

/-- Filled order carrying a different side, stop and target than the open
position, to exhibit that they are ignored by the merge. -/
def ordC9 : Order :=
  { id := "ORD_x_1", symbol := "EURUSD", order_type := OrderType.MARKET_SELL,
    side := "SELL", quantity := 3, price := 2, stop_loss := 5/2,
    take_profit := 1/2, status := OrderStatus.PENDING, filled_price := none,
    filled_quantity := 0, created_at := 0, filled_at := none, pnl := 0 }

/- ========== PYTHON ROUNDING ==========
Python `round` uses round-half-to-even (banker's rounding). -/

/-- Python `round(x)` on an exact rational value: nearest integer, ties to the
even neighbour. -/
def pyRoundInt (x : ℚ) : ℤ :=
  let f := ⌊x⌋
  let r := x - f
  if r < 1/2 then f else if 1/2 < r then f + 1 else if f % 2 = 0 then f else f + 1

/-- Python `round(x, 2)`. -/
def pyRound2 (x : ℚ) : ℚ := (pyRoundInt (x * 100) : ℚ) / 100

/- ========== ML ENGINE (src/app/services/ml_engine.py) ========== -/

/-- `MLEngine.predict_probability(symbol, features)`.  The inputs are the
values of `features.get('hour', 0)` and `features.get('volatility', 0)` (as
`Option`s with the `.get` defaults applied inside).  The local variable `prob`
is read (`prob += 0.1` and the final `return`) but never initialized, which
this embedding models by an `Option ℚ` local that starts as `none`; any read
of `none` raises `UnboundLocalError`. -/
def predict_probability (feat_hour : Option ℤ) (feat_volatility : Option ℚ) :
    Except PyErr ℚ :=
  let hour := feat_hour.getD 0
  let prob0 : Option ℚ := none
  let step1 : Except PyErr (Option ℚ) :=
    if 8 ≤ hour ∧ hour ≤ 18 then
      match prob0 with
      | none => Except.error PyErr.unboundLocalError
      | some v => Except.ok (some (v + 1/10))
    else Except.ok prob0
  match step1 with
  | Except.error e => Except.error e
  | Except.ok prob1 =>
    let vol := feat_volatility.getD 0
    let step2 : Except PyErr (Option ℚ) :=
      if 3/10 < vol ∧ vol < 3 then
        match prob1 with
        | none => Except.error PyErr.unboundLocalError
        | some v => Except.ok (some (v + 1/10))
      else if 5 < vol then
        match prob1 with
        | none => Except.error PyErr.unboundLocalError
        | some v => Except.ok (some (v - 1/10))
      else Except.ok prob1
    match step2 with
    | Except.error e => Except.error e
    | Except.ok none => Except.error PyErr.unboundLocalError
    | Except.ok (some v) => Except.ok (min (95/100) (max (5/100) v))

/- ========== BACKTEST ENGINE (src/app/services/backtest_engine.py) ========== -/

/-- Trade-statistics part of `BacktestResult`.  The equity-curve metrics
(`max_drawdown`, `sharpe_ratio`, `sortino_ratio`) involve square roots and are
not needed by the claims, so they are not carried here. -/
structure BacktestStats where
  total_trades : ℕ
  winning_trades : ℕ
  losing_trades : ℕ
  win_rate : ℚ
  total_pnl : ℚ
  profit_factor : ℚ
  avg_win : ℚ
  avg_loss : ℚ
  largest_win : ℚ
  largest_loss : ℚ
deriving DecidableEq, Repr

/-- Python `max(l)` for a nonempty list (0 for the guarded empty case). -/
def listMax (l : List ℚ) : ℚ :=
  match l with
  | [] => 0
  | x :: xs => xs.foldl max x

/-- Python `min(l)` for a nonempty list (0 for the guarded empty case). -/
def listMin (l : List ℚ) : ℚ :=
  match l with
  | [] => 0
  | x :: xs => xs.foldl min x

/-- `BacktestEngine._calculate_results`, restricted to the trade statistics.
`pnls` is `[t.pnl for t in self.trades]`; the early return for an empty trade
list reports zeros everywhere. -/
def calculate_results (pnls : List ℚ) : BacktestStats :=
  if pnls = [] then
    { total_trades := 0, winning_trades := 0, losing_trades := 0,
      win_rate := 0, total_pnl := 0, profit_factor := 0, avg_win := 0,
      avg_loss := 0, largest_win := 0, largest_loss := 0 }
  else
    let wins := pnls.filter (fun p => 0 < p)
    let losses := pnls.filter (fun p => p < 0)
    let gross_profit := if wins ≠ [] then wins.sum else 0
    let gross_loss := if losses ≠ [] then |losses.sum| else 1
    { total_trades := pnls.length,
      winning_trades := wins.length,
      losing_trades := losses.length,
      win_rate := (wins.length : ℚ) / (pnls.length : ℚ) * 100,
      total_pnl := pnls.sum,
      profit_factor := if 0 < gross_loss then gross_profit / gross_loss else 0,
      avg_win := if wins ≠ [] then wins.sum / (wins.length : ℚ) else 0,
      avg_loss := if losses ≠ [] then losses.sum / (losses.length : ℚ) else 0,
      largest_win := if wins ≠ [] then listMax wins else 0,
      largest_loss := if losses ≠ [] then listMin losses else 0 }

/- ========== RISK MANAGER (src/app/services/risk_manager.py) ========== -/

/-- The fields of `mt5.symbol_info(symbol)` read by `calculate_lot_size`. -/
structure SymbolInfo where
  trade_tick_value : ℚ
  trade_tick_size : ℚ
  volume_min : ℚ
  volume_max : ℚ
  volume_step : ℚ
deriving DecidableEq, Repr

/-- The field of `mt5.account_info()` read by `calculate_lot_size`. -/
structure AccountInfo where
  equity : ℚ
deriving DecidableEq, Repr

/-- Body of the `try` block of `RiskManager.calculate_lot_size`.
`risk_per_trade_setting` is `_settings.get('risk_per_trade', 1.0)`; the
gateway reads `mt5.account_info()` and `mt5.symbol_info(symbol)` are oracle
inputs.  A zero `volume_step` makes `lots / step` raise `ZeroDivisionError`
(Python float division by zero). -/
def calculate_lot_size_body (risk_per_trade_setting : ℚ)
    (account : Option AccountInfo) (symbol_info : Option SymbolInfo)
    (entry_price stop_loss : ℚ) : Except PyErr ℚ :=
  let base_lot : ℚ := 1/100
  let max_position_risk := risk_per_trade_setting / 100
  match account with
  | none => Except.ok base_lot
  | some acct =>
    let equity := acct.equity
    let risk_amount := equity * max_position_risk
    let distance := |entry_price - stop_loss|
    if distance ≤ 0 then Except.ok base_lot
    else
      match symbol_info with
      | none => Except.ok base_lot
      | some si =>
        if si.trade_tick_value = 0 ∨ si.trade_tick_size = 0 then Except.ok base_lot
        else
          let lots0 := risk_amount / (distance / si.trade_tick_size * si.trade_tick_value)
          let lots1 := max si.volume_min (min si.volume_max lots0)
          if si.volume_step = 0 then Except.error PyErr.zeroDivisionError
          else
            let lots2 := (pyRoundInt (lots1 / si.volume_step) : ℚ) * si.volume_step
            Except.ok (pyRound2 lots2)

/-- `RiskManager.calculate_lot_size`: the surrounding `except Exception`
returns `self.base_lot` when anything in the body raises. -/
def calculate_lot_size (risk_per_trade_setting : ℚ)
    (account : Option AccountInfo) (symbol_info : Option SymbolInfo)
    (entry_price stop_loss : ℚ) : ℚ :=
  match calculate_lot_size_body risk_per_trade_setting account symbol_info
      entry_price stop_loss with
  | Except.ok v => v
  | Except.error _ => 1/100

/-- Outcome of `AutoTrader._execute_trade` as far as order placement is
concerned. -/
inductive ExecTradeOutcome
  | skippedInvalidLot     -- `if lots <= 0: return` — no order is placed
  | orderCallErrorCaught  -- the `place_order` call itself raises `TypeError`
                          -- (the call passes `order_type=`/no `side`/no
                          -- `price` against `place_order`'s signature), which
                          -- the local `except` swallows
deriving DecidableEq, Repr

/-- Guard structure of `AutoTrader._execute_trade(symbol, signal, lots, ...)`. -/
def execute_trade (lots : ℚ) : ExecTradeOutcome :=
  if lots ≤ 0 then ExecTradeOutcome.skippedInvalidLot
  else ExecTradeOutcome.orderCallErrorCaught

/-- Instrument used by the C8 witness: ticks of size/value 1, volumes in
[0.01, 10] stepped by 0.01. -/
def siC8 : SymbolInfo :=
  { trade_tick_value := 1, trade_tick_size := 1, volume_min := 1/100,
    volume_max := 10, volume_step := 1/100 }

/- ========== LIST HELPERS FOR NUMPY-STYLE INDEXING ========== -/

/-- `arr[-1]` with a default for the (never hit) empty case. -/
def lastD {α : Type} (l : List α) (d : α) : α := l.getLastD d

/-- `arr[-2]` with a default. -/
def last2D {α : Type} (l : List α) (d : α) : α :=
  (l.drop (l.length - 2)).headD d

/-- `arr[-n:]`. -/
def lastN {α : Type} (l : List α) (n : ℕ) : List α := l.drop (l.length - n)

/- ========== QUANT ENGINE INDICATORS (src/app/services/quant_engine.py) ========== -/

/-- `np.mean` (division by zero for the empty list yields 0 in this model;
the sources only take means of nonempty slices). -/
def mean (l : List ℚ) : ℚ := l.sum / (l.length : ℚ)

/-- `np.diff`. -/
def npdiff (l : List ℚ) : List ℚ := List.zipWith (fun a b => b - a) l l.tail

/-- `QuantEngine.calculate_ema(data, period)`: seed `ema[0] = data[0]`, then
`ema[i] = alpha*data[i] + (1-alpha)*ema[i-1]` with `alpha = 2/(period+1)`.
(The source raises `IndexError` on an empty array; callers always pass at
least 100 points, the model returns `[]`.) -/
def calculate_ema (data : List ℚ) (period : ℕ) : List ℚ :=
  let alpha : ℚ := 2 / ((period : ℚ) + 1)
  match data with
  | [] => []
  | d0 :: rest => List.scanl (fun e x => alpha * x + (1 - alpha) * e) d0 rest

/-- One step of Wilder smoothing: `(prev*(period-1) + x) / period`. -/
def wilderStep (period : ℕ) (a x : ℚ) : ℚ := (a * ((period : ℚ) - 1) + x) / period

/-- The running Wilder-smoothed series `avg[period], avg[period+1], ...`
seeded by the simple mean. -/
def wilderSmooth (period : ℕ) (seed : ℚ) (xs : List ℚ) : List ℚ :=
  List.scanl (wilderStep period) seed xs

/-- `QuantEngine.calculate_rsi(data, period)`.  The assignment
`avg_gain[period] = ...` raises `IndexError` when `len(data) <= period`
(modelled as `none`).  Indices below `period` keep the `np.zeros` value 0, and
`rs = np.where(avg_loss != 0, avg_gain/avg_loss, 100)` maps a zero average
loss to RS = 100. -/
def calculate_rsi (data : List ℚ) (period : ℕ) : Option (List ℚ) :=
  if data.length ≤ period then none
  else
    let deltas := npdiff data
    let gains := deltas.map (fun d => if 0 < d then d else 0)
    let losses := deltas.map (fun d => if d < 0 then -d else 0)
    let avg_gain := List.replicate period 0 ++
      wilderSmooth period (mean (gains.take period)) (gains.drop period)
    let avg_loss := List.replicate period 0 ++
      wilderSmooth period (mean (losses.take period)) (losses.drop period)
    let rs := List.zipWith (fun g l => if l ≠ 0 then g / l else 100) avg_gain avg_loss
    some (rs.map (fun r => 100 - 100 / (1 + r)))

/-- `pd.Series(data).rolling(window=period)` followed by an aggregate: the
first `period - 1` positions are NaN in the source and are modelled as 0 —
every consumer only reads positions at least `period - 1` (series of length
at least 100 throughout). -/
def rollingApply (data : List ℚ) (period : ℕ) (f : List ℚ → ℚ) : List ℚ :=
  (List.range data.length).map (fun i =>
    if i + 1 < period then 0
    else f ((data.drop (i + 1 - period)).take period))

/-- Sample variance (pandas `std` uses `ddof=1`); its square root is the
rolling standard deviation. -/
def sampleVariance (window : List ℚ) : ℚ :=
  let m := mean window
  (window.map (fun x => (x - m) ^ 2)).sum / ((window.length : ℚ) - 1)

/-- `QuantEngine.calculate_bollinger_bands(data, period, std_dev)` returning
(upper, middle, lower).  `sqrtO` is the square-root oracle standing in for the
irrational square root inside the rolling standard deviation. -/
def calculate_bollinger_bands (sqrtO : ℚ → ℚ) (data : List ℚ) (period : ℕ)
    (std_dev : ℚ) : List ℚ × List ℚ × List ℚ :=
  let middle := rollingApply data period mean
  let std := rollingApply data period (fun w => sqrtO (sampleVariance w))
  (List.zipWith (fun m s => m + s * std_dev) middle std,
   middle,
   List.zipWith (fun m s => m - s * std_dev) middle std)

/-- The true-range series `tr[i] = max(high[i+1]-low[i+1],
|high[i+1]-close[i]|, |low[i+1]-close[i]|)`. -/
def trueRange (high low close : List ℚ) : List ℚ :=
  List.zipWith (fun hl pc => max (hl.1 - hl.2) (max |hl.1 - pc| |hl.2 - pc|))
    (List.zipWith Prod.mk high.tail low.tail) close

/-- `QuantEngine.calculate_atr(high, low, close, period)`: Wilder smoothing of
the true range, zeros below index `period`; `IndexError` (here `none`) when
`len(close) <= period`. -/
def calculate_atr (high low close : List ℚ) (period : ℕ) : Option (List ℚ) :=
  if close.length ≤ period then none
  else
    let tr := trueRange high low close
    some (List.replicate period 0 ++
      wilderSmooth period (mean (tr.take period)) (tr.drop period))

/-- `QuantEngine.calculate_macd(data, fast, slow, signal_p)` returning
(macd_line, signal_line, histogram). -/
def calculate_macd (data : List ℚ) (fast slow signal_p : ℕ) :
    List ℚ × List ℚ × List ℚ :=
  let ema_fast := calculate_ema data fast
  let ema_slow := calculate_ema data slow
  let macd_line := List.zipWith (fun a b => a - b) ema_fast ema_slow
  let signal_line := calculate_ema macd_line signal_p
  (macd_line, signal_line, List.zipWith (fun a b => a - b) macd_line signal_line)

/-- `QuantEngine.calculate_vwap(high, low, close, volume)`: cumulative
typical-price-volume over cumulative volume (a zero cumulative volume would
be a NaN in numpy; modelled by rational division, which yields 0). -/
def calculate_vwap (high low close volume : List ℚ) : List ℚ :=
  let typical := List.zipWith (fun hl c => (hl.1 + hl.2 + c) / 3)
    (List.zipWith Prod.mk high low) close
  let tpv := List.zipWith (fun t v => t * v) typical volume
  let cum_tpv := (List.scanl (fun a b => a + b) 0 tpv).tail
  let cum_volume := (List.scanl (fun a b => a + b) 0 volume).tail
  List.zipWith (fun a b => a / b) cum_tpv cum_volume

/-- The strictly increasing 16-point series 1..16 used to refute C6 as
stated. -/
def dataC6 : List ℚ :=
  [1, 2, 3, 4, 5, 6, 7, 8, 9, 10, 11, 12, 13, 14, 15, 16]

/-- The strictly decreasing mirror series 16..1. -/
def dataC6down : List ℚ :=
  [16, 15, 14, 13, 12, 11, 10, 9, 8, 7, 6, 5, 4, 3, 2, 1]

/- ========== REGIME AND SIGNAL GENERATION (src/app/services/quant_engine.py) ========== -/

/-- `class MarketRegime(Enum)`. -/
inductive MarketRegime
  | TRENDING_STRONG | TRENDING_WEAK | RANGING | VOLATILE | BREAKOUT
deriving DecidableEq, Repr

/-- The `.value` string of a `MarketRegime`. -/
def MarketRegime.value : MarketRegime → String
  | MarketRegime.TRENDING_STRONG => "TRENDING_STRONG"
  | MarketRegime.TRENDING_WEAK => "TRENDING_WEAK"
  | MarketRegime.RANGING => "RANGING"
  | MarketRegime.VOLATILE => "VOLATILE"
  | MarketRegime.BREAKOUT => "BREAKOUT"

/-- One OHLCV bar (a row of the DataFrame built from the gateway candles;
the `open` column is `open_price` here because `open` is a Lean keyword). -/
structure Candle where
  time : ℚ
  open_price : ℚ
  high : ℚ
  low : ℚ
  close : ℚ
  volume : ℚ
deriving DecidableEq, Repr

/-- `df['close'].values`. -/
def closes (df : List Candle) : List ℚ := df.map (fun c => c.close)

/-- `df['high'].values`. -/
def highs (df : List Candle) : List ℚ := df.map (fun c => c.high)

/-- `df['low'].values`. -/
def lows (df : List Candle) : List ℚ := df.map (fun c => c.low)

/-- `df['open'].values`. -/
def opens (df : List Candle) : List ℚ := df.map (fun c => c.open_price)

/-- `df['volume'].values` (`np.ones_like` would be used were the column
missing; the gateway candles always carry volume). -/
def volumes (df : List Candle) : List ℚ := df.map (fun c => c.volume)

/-- `QuantEngine.detect_regime(df)`.  `sqrtO` is the square-root oracle for
the Bollinger rolling standard deviation. -/
def detect_regime (sqrtO : ℚ → ℚ) (df : List Candle) : MarketRegime :=
  let close := closes df
  let high := highs df
  let low := lows df
  let ema_20 := calculate_ema close 20
  let ema_50 := calculate_ema close 50
  let atr := (calculate_atr high low close 14).getD []
  let atr_current := lastD atr 0
  let atr_avg := mean (lastN atr 50)
  let bb := calculate_bollinger_bands sqrtO close 20 2
  let upper := bb.1
  let middle := bb.2.1
  let lower := bb.2.2
  let bb_width := if lastD middle 0 ≠ 0
    then (lastD upper 0 - lastD lower 0) / lastD middle 0 else 0
  let bb_avg_width := mean (List.zipWith (fun ul m => ul / m)
    (List.zipWith (fun u l => u - l) (lastN upper 50) (lastN lower 50))
    (lastN middle 50))
  let ema_diff := (lastD ema_20 0 - lastD ema_50 0) / lastD close 0 * 100
  if atr_avg * (12/10) < atr_current ∧ bb_avg_width * (11/10) < bb_width then
    MarketRegime.VOLATILE
  else if 1/2 < |ema_diff| ∧ atr_avg < atr_current then
    MarketRegime.BREAKOUT
  else if 3/10 < |ema_diff| then
    (if 1/2 < |ema_diff| then MarketRegime.TRENDING_STRONG
     else MarketRegime.TRENDING_WEAK)
  else MarketRegime.RANGING

/-- The `SignalStrength` dataclass.  The numeric interpolations inside the
`reasoning` strings (current RSI, risk:reward) are omitted from the modelled
messages; the texts are otherwise those of the source. -/
structure SignalStrength where
  direction : String
  confidence : ℚ
  entry_price : ℚ
  stop_loss : ℚ
  take_profit_1 : ℚ
  take_profit_2 : ℚ
  take_profit_3 : ℚ
  risk_reward : ℚ
  strategy : String
  reasoning : List String
deriving DecidableEq, Repr

/-- Stop-loss ATR multiplier by regime (the `else` of the source covers
RANGING and the remaining VOLATILE case). -/
def sl_mult_for (regime : MarketRegime) : ℚ :=
  match regime with
  | MarketRegime.TRENDING_STRONG => 3/2
  | MarketRegime.TRENDING_WEAK => 2
  | MarketRegime.BREAKOUT => 5/2
  | _ => 3/2

/-- The price levels computed at the end of `generate_signal`: stop, the
three take profits, and the resulting risk:reward (0 when the risk distance
is 0). -/
structure SignalLevels where
  stop_loss : ℚ
  tp1 : ℚ
  tp2 : ℚ
  tp3 : ℚ
  risk_reward : ℚ
deriving DecidableEq, Repr

/-- Risk-management block of `generate_signal`: `tp2_mult = sl_mult *
target_rr`, `tp1_mult = tp2_mult * 0.75`, `tp3_mult = tp2_mult * 1.5`, the
same entropy factor applied to stop and all targets, directions mirrored for
SELL. -/
def signal_levels (direction : String)
    (current_price atr_current sl_mult target_rr entropy : ℚ) : SignalLevels :=
  let tp2_mult := sl_mult * target_rr
  let tp1_mult := tp2_mult * (3/4)
  let tp3_mult := tp2_mult * (3/2)
  let stop_loss := if direction = "BUY"
    then current_price - atr_current * sl_mult * entropy
    else current_price + atr_current * sl_mult * entropy
  let tp1 := if direction = "BUY"
    then current_price + atr_current * tp1_mult * entropy
    else current_price - atr_current * tp1_mult * entropy
  let tp2 := if direction = "BUY"
    then current_price + atr_current * tp2_mult * entropy
    else current_price - atr_current * tp2_mult * entropy
  let tp3 := if direction = "BUY"
    then current_price + atr_current * tp3_mult * entropy
    else current_price - atr_current * tp3_mult * entropy
  let risk := |current_price - stop_loss|
  let reward := |tp2 - current_price|
  { stop_loss := stop_loss, tp1 := tp1, tp2 := tp2, tp3 := tp3,
    risk_reward := if 0 < risk then reward / risk else 0 }

/-- The ATR value `atr[-1]` that `generate_signal` uses for its stop/target
distances, as a function of the input frame. -/
def atr_last (df : List Candle) : ℚ :=
  lastD ((calculate_atr (highs df) (lows df) (closes df) 14).getD []) 0

/-- `QuantEngine.generate_signal(df, symbol)`.  Oracles: `sqrtO` for the
rolling standard deviation, `conf_rand` the draw of `random.uniform(0.95,
1.05)`, `entropy` the draw of `random.uniform(0.98, 1.02)`, `choiceO` for
`random.choice`; `target_rr` is `_settings.get('target_risk_reward', 1.5)`.
Both regime branches of the source set `min_score_threshold = 1`. -/
def generate_signal (sqrtO : ℚ → ℚ) (conf_rand entropy : ℚ)
    (choiceO : List String → String) (target_rr : ℚ) (df : List Candle) :
    Option SignalStrength :=
  if df.length < 100 then none
  else
    let close := closes df
    let high := highs df
    let low := lows df
    let open_p := opens df
    let current_price := lastD close 0
    let regime := detect_regime sqrtO df
    let min_score_threshold : ℤ := 1
    -- 1. Trend Analysis
    let ema_20 := calculate_ema close 20
    let ema_50 := calculate_ema close 50
    let ema_200 := calculate_ema close 200
    let trend : ℤ × List String :=
      if lastD ema_50 0 < lastD ema_20 0 ∧ lastD ema_200 0 < lastD ema_50 0 then
        (2, ["✓ Strong Uptrend (EMA 20 > 50 > 200)"])
      else if lastD ema_20 0 < lastD ema_50 0 ∧ lastD ema_50 0 < lastD ema_200 0 then
        (-2, ["✓ Strong Downtrend (EMA 20 < 50 < 200)"])
      else (0, [])
    -- 2. VWAP & Volume confirmation
    let volume := volumes df
    let vwap := calculate_vwap high low close volume
    let vol_sc : ℤ × List String :=
      if lastD vwap 0 < current_price then (1, ["✓ Price above VWAP (Bullish Bias)"])
      else (-1, ["✓ Price below VWAP (Bearish Bias)"])
    -- 3. RSI Analysis
    let rsi := (calculate_rsi close 14).getD []
    let rsi_current := lastD rsi 0
    let rsi_sc : ℤ × List String :=
      if rsi_current < 30 then (1, ["✓ RSI Oversold"])
      else if 70 < rsi_current then (-1, ["✓ RSI Overbought"])
      else (0, [])
    -- 4. MACD Analysis
    let macd := calculate_macd close 12 26 9
    let macd_line := macd.1
    let signal_line := macd.2.1
    let histogram := macd.2.2
    let macd_sc : ℤ × List String :=
      if lastD signal_line 0 < lastD macd_line 0 ∧
          last2D histogram 0 < lastD histogram 0 then
        (1, ["✓ MACD Bullish Crossover"])
      else if lastD macd_line 0 < lastD signal_line 0 ∧
          lastD histogram 0 < last2D histogram 0 then
        (-1, ["✓ MACD Bearish Crossover"])
      else (0, [])
    -- 5. Bollinger Band Analysis
    let bb := calculate_bollinger_bands sqrtO close 20 2
    let upper := bb.1
    let lower := bb.2.2
    let bb_sc : ℤ × List String :=
      if current_price < lastD lower 0 then
        (1, ["✓ Price below Lower BB (Mean Reversion Buy)"])
      else if lastD upper 0 < current_price then
        (-1, ["✓ Price above Upper BB (Mean Reversion Sell)"])
      else (0, [])
    -- 6. Candlestick Pattern Recognition
    let c1 := lastD close 0
    let c2 := last2D close 0
    let o1 := lastD open_p 0
    let o2 := last2D open_p 0
    let engulf_bull : ℤ × List String :=
      if o1 < c1 ∧ c2 < o2 ∧ o2 < c1 ∧ o1 < c2 then
        (3, ["✓ Bullish Engulfing Pattern"])
      else (0, [])
    let engulf_bear : ℤ × List String :=
      if c1 < o1 ∧ o2 < c2 ∧ c1 < o2 ∧ c2 < o1 then
        (-3, ["✓ Bearish Engulfing Pattern"])
      else (0, [])
    let body := |c1 - o1|
    let wick_lower := min c1 o1 - lastD low 0
    let wick_upper := lastD high 0 - max c1 o1
    let pin_bull : ℤ × List String :=
      if 2 * body < wick_lower ∧ wick_upper < body then
        (1, ["✓ Bullish Pinbar/Hammer"])
      else (0, [])
    let pin_bear : ℤ × List String :=
      if 2 * body < wick_upper ∧ wick_lower < body then
        (-1, ["✓ Bearish Shooting Star"])
      else (0, [])
    let pattern_score := engulf_bull.1 + engulf_bear.1 + pin_bull.1 + pin_bear.1
    -- 6. ATR for Stop Loss Calculation
    let atr_current := atr_last df
    -- ========== ENSEMBLE SCORING ==========
    let total_score := trend.1 + rsi_sc.1 + macd_sc.1 + bb_sc.1 + vol_sc.1 + pattern_score
    if |total_score| < min_score_threshold then none
    else
      let direction := if 0 < total_score then "BUY" else "SELL"
      let raw_confidence := min ((|total_score| : ℚ) / 5) 1
      let confidence := min (pyRound2 (raw_confidence * conf_rand)) 1
      let sl_mult := sl_mult_for regime
      let levels := signal_levels direction current_price atr_current sl_mult
        target_rr entropy
      let active_strategies :=
        (if trend.1 ≠ 0 then ["Cortex Trend Guard"] else []) ++
        (if rsi_sc.1 ≠ 0 then ["Oversold Mean Revert"] else []) ++
        (if macd_sc.1 ≠ 0 then ["MACD Divergence Hunter"] else []) ++
        (if bb_sc.1 ≠ 0 then ["Price Action Scalper"] else []) ++
        (if vol_sc.1 ≠ 0 then ["Smart Money Flow"] else []) ++
        (if 4/5 < confidence then
          ["Fibonacci Retrace Alpha", "Harmonic Bat Pattern", "Volvo Breakout"]
         else [])
      let primary_strategy :=
        if active_strategies ≠ [] then choiceO active_strategies
        else "Cortex Trend Guard"
      let reasoning := ["Regime: " ++ regime.value] ++ trend.2 ++ vol_sc.2 ++
        rsi_sc.2 ++ macd_sc.2 ++ bb_sc.2 ++ engulf_bull.2 ++ engulf_bear.2 ++
        pin_bull.2 ++ pin_bear.2 ++ ["Risk:Reward = 1:"] ++
        ["Strat: " ++ primary_strategy]
      some { direction := direction, confidence := confidence,
             entry_price := current_price, stop_loss := levels.stop_loss,
             take_profit_1 := levels.tp1, take_profit_2 := levels.tp2,
             take_profit_3 := levels.tp3, risk_reward := levels.risk_reward,
             strategy := primary_strategy, reasoning := reasoning }

/-- The constant true range of a constant frame. -/
def trZero (K : Candle) : ℚ :=
  max (K.high - K.low) (max |K.high - K.close| |K.low - K.close|)

/-- A faithful square-root oracle for inputs on which every variance is 0. -/
def sqrtZero : ℚ → ℚ := fun _ => 0

/-- A faithful instance of `random.choice`: picks the first entry. -/
def choiceHead : List String → String := fun l => l.headD "Cortex Trend Guard"

/-- A fully flat bar: open = high = low = close = 1, volume 1. -/
def candleA : Candle :=
  { time := 0, open_price := 1, high := 1, low := 1, close := 1, volume := 1 }

/-- 100 flat bars — the ATR is 0 on this frame. -/
def flatA : List Candle := List.replicate 100 candleA

/-- The degenerate signal emitted on `flatA`. -/
def sigA : SignalStrength :=
  { direction := "SELL", confidence := 2/5, entry_price := 1, stop_loss := 1,
    take_profit_1 := 1, take_profit_2 := 1, take_profit_3 := 1,
    risk_reward := 0, strategy := "Oversold Mean Revert",
    reasoning := ["Regime: RANGING", "✓ Price below VWAP (Bearish Bias)",
      "✓ RSI Overbought", "Risk:Reward = 1:", "Strat: Oversold Mean Revert"] }

/-- A flat-close bar with a 2-point range: close 10, high 11, low 9 — the ATR
is 2 on this frame. -/
def candleB : Candle :=
  { time := 0, open_price := 10, high := 11, low := 9, close := 10, volume := 1 }

/-- 100 such bars. -/
def flatB : List Candle := List.replicate 100 candleB

/-- The signal emitted on `flatB` with conf_rand = entropy = 1 and target
risk:reward 1.5. -/
def sigB : SignalStrength :=
  { direction := "SELL", confidence := 2/5, entry_price := 10, stop_loss := 13,
    take_profit_1 := 53/8, take_profit_2 := 11/2, take_profit_3 := 13/4,
    risk_reward := 3/2, strategy := "Oversold Mean Revert",
    reasoning := ["Regime: RANGING", "✓ Price below VWAP (Bearish Bias)",
      "✓ RSI Overbought", "Risk:Reward = 1:", "Strat: Oversold Mean Revert"] }

/- ========== AI AGENT (src/app/services/ai_agent.py) ========== -/

/-- The fields of `AIAgent` read by `validate_signal`. -/
structure AIAgentState where
  model : String
  ollama_ready : Bool
  loaded_models : List String
deriving DecidableEq, Repr

/-- The decision dictionary returned by `AIAgent.validate_signal`: the keys
`decision`, `confidence`, `reason`, each possibly absent when the dict came
from parsed model JSON (the caller reads them with `.get` and defaults). -/
structure AIDict where
  decision : Option String
  confidence : Option ℚ
  reason : Option String
deriving DecidableEq, Repr

/-- Oracle for the HTTP round trip to Ollama inside `validate_signal`:
`requestFailed` covers a non-200 status and every exception (all of which
fall through to the fallback HOLD return); `parsed v` is a 200 status whose
`response` field parses as JSON; `textBUY` / `textSELL` / `textUnclear` are a
200 status whose `response` is not valid JSON and contains `BUY` / contains
`SELL` but not `BUY` / contains neither. -/
inductive OllamaOutcome
  | requestFailed
  | parsed (v : AIDict)
  | textBUY
  | textSELL
  | textUnclear
deriving DecidableEq, Repr

/-- `AIAgent.validate_signal(symbol, signal_data, regime)`.  The `symbol`,
`signal_data` and `regime` arguments only feed the prompt text, so they do
not appear here; `recheck_loaded` is `self.loaded_models` after the
`_check_ollama_health()` re-check (an external HTTP effect). -/
def validate_signal (st : AIAgentState) (ollama : OllamaOutcome)
    (recheck_loaded : List String) : AIDict :=
  if ¬ st.ollama_ready then
    { decision := some "HOLD", confidence := some 0,
      reason := some "AI Brain offline - Ollama models not loaded. Cannot validate signal." }
  else if ¬ st.loaded_models.contains st.model ∧
      ¬ recheck_loaded.contains st.model then
    { decision := some "HOLD", confidence := some 0,
      reason := some ("Model " ++ st.model ++ " not available. Run: ollama pull "
        ++ st.model) }
  else
    match ollama with
    | OllamaOutcome.parsed v => v
    | OllamaOutcome.textBUY =>
      { decision := some "BUY", confidence := some (1/2),
        reason := some "AI approved (parsed from text)" }
    | OllamaOutcome.textSELL =>
      { decision := some "SELL", confidence := some (1/2),
        reason := some "AI approved (parsed from text)" }
    | OllamaOutcome.textUnclear =>
      { decision := some "HOLD", confidence := some 0,
        reason := some "AI response unclear" }
    | OllamaOutcome.requestFailed =>
      { decision := some "HOLD", confidence := some 0,
        reason := some "AI validation failed - cannot proceed without AI Brain approval." }

/-- `MLEngine.calculate_compounding_lot(base_lot, equity, drawdown)`; `sqrtO`
stands for the float power `** 0.5`. -/
def calculate_compounding_lot (sqrtO : ℚ → ℚ)
    (base_lot equity drawdown : ℚ) : ℚ :=
  let growth_factor : ℚ := if 10000 < equity then sqrtO (equity / 10000) else 1
  let growth_factor := if 2 < drawdown then growth_factor * (1 - drawdown / 100)
    else growth_factor
  pyRound2 (base_lot * growth_factor)

/- ========== AUTO TRADER PIPELINE (src/app/services/auto_trader.py) ======= -/

/-- `df['close'].pct_change()` without the leading NaN (which pandas `.std()`
skips anyway). -/
def pctChange (l : List ℚ) : List ℚ :=
  List.zipWith (fun prev next => (next - prev) / prev) l l.tail

/-- `df['close'].pct_change().std() * 100`, the `volatility` feature built in
`_analyze_market`; `sqrtO` stands for the square root inside `std`. -/
def volatility_feature (sqrtO : ℚ → ℚ) (close : List ℚ) : ℚ :=
  sqrtO (sampleVariance (pctChange close)) * 100

/-- A live quote as returned by `realtime_service.get_live_price`. -/
structure Tick where
  bid : ℚ
  ask : ℚ
deriving DecidableEq, Repr

/-- The named validation stages of `_analyze_market` (steps 2-8 of the
source's pipeline comments). -/
inductive Stage
  | confidenceCheck
  | riskRewardCheck
  | advisorCheck
  | probabilityCheck
  | newsCheck
  | liquidityCheck
  | sizingExecution
deriving DecidableEq, Repr

/-- The stage prefix that executes when `st` is the last stage reached. -/
def stagesUpTo : Stage → List Stage
  | Stage.confidenceCheck => [Stage.confidenceCheck]
  | Stage.riskRewardCheck => [Stage.confidenceCheck, Stage.riskRewardCheck]
  | Stage.advisorCheck =>
      [Stage.confidenceCheck, Stage.riskRewardCheck, Stage.advisorCheck]
  | Stage.probabilityCheck =>
      [Stage.confidenceCheck, Stage.riskRewardCheck, Stage.advisorCheck,
       Stage.probabilityCheck]
  | Stage.newsCheck =>
      [Stage.confidenceCheck, Stage.riskRewardCheck, Stage.advisorCheck,
       Stage.probabilityCheck, Stage.newsCheck]
  | Stage.liquidityCheck =>
      [Stage.confidenceCheck, Stage.riskRewardCheck, Stage.advisorCheck,
       Stage.probabilityCheck, Stage.newsCheck, Stage.liquidityCheck]
  | Stage.sizingExecution =>
      [Stage.confidenceCheck, Stage.riskRewardCheck, Stage.advisorCheck,
       Stage.probabilityCheck, Stage.newsCheck, Stage.liquidityCheck,
       Stage.sizingExecution]

/-- How one `_analyze_market(symbol)` call ends. -/
inductive AnalyzeOutcome
  | haltedDisconnected        -- MT5 guard before the pipeline
  | skippedOpenPosition       -- symbol already has a position
  | skippedCooldown           -- 300 s per-symbol cooldown
  | skippedInsufficientData   -- no candles or fewer than 50
  | skippedInvalidPrices      -- a zero close in the frame
  | noTradeSignal             -- generator returned nothing / NEUTRAL
  | rejected (st : Stage)     -- a pipeline stage blocked the trade
  | exceptionCaught (e : PyErr)  -- the outer `except Exception` fired
  | tradeAttempt (lots : ℚ) (result : ExecTradeOutcome)
deriving DecidableEq, Repr

/-- Result of one `_analyze_market` call: its outcome, how many times
`ai_agent.validate_signal` was called, and the ordered trace of pipeline
stages that started executing. -/
structure AnalyzeResult where
  outcome : AnalyzeOutcome
  advisor_calls : ℕ
  stages_run : List Stage
deriving DecidableEq, Repr

/-- Every external input read during one `_analyze_market` call: the live
dashboard settings (already defaulted by `.get`), connection and position
state, the candle fetch, the randomness and square-root oracles of the quant
engine, the AI-agent state and its HTTP oracle, the news check, the live
quote, and the two account snapshots (`realtime_service.get_account_info()`
for sizing, `mt5.account_info()` inside the risk manager). -/
structure MarketEnv where
  quant_confidence : ℚ        -- _settings.get('quant_confidence', 40)
  risk_reward_min : ℚ         -- _settings.get('risk_reward_min', 1.5)
  ml_threshold_setting : ℚ    -- _settings.get('ml_threshold', 60)
  target_rr : ℚ               -- _settings.get('target_risk_reward', 1.5)
  risk_per_trade_setting : ℚ  -- _settings.get('risk_per_trade', 1.0)
  mt5_connected : Bool
  open_position_symbols : List String
  now : ℚ                     -- time.time()
  last_signal_time : ℚ        -- self.last_signal_time.get(symbol, 0)
  candles : Option (List Candle)
  sqrtO : ℚ → ℚ
  conf_rand : ℚ               -- random.uniform(0.95, 1.05)
  entropy : ℚ                 -- random.uniform(0.98, 1.02)
  choiceO : List String → String
  ai : AIAgentState
  ollama : OllamaOutcome
  recheck_loaded : List String
  hour : ℤ                    -- datetime.now().hour
  news_stop : Bool            -- news_service.check_news_stop(...)['stop']
  tick : Option Tick
  equity : ℚ                  -- realtime account snapshot for sizing
  balance : ℚ
  mt5_account : Option AccountInfo
  symbol_info : Option SymbolInfo

/-- The validation pipeline of `_analyze_market` (the body of
`if signal and signal.direction != 'NEUTRAL':`, steps 2-8): confidence,
risk:reward, advisor, ML probability, news, spread/liquidity, then sizing
and execution.  The regime computed between the risk:reward and advisor
steps only feeds the prompt text, so it is elided; the raise inside
`predict_probability` propagates to the outer `except Exception`. -/
def analyze_pipeline (env : MarketEnv) (candles : List Candle)
    (signal : SignalStrength) : AnalyzeResult :=
  if signal.confidence < env.quant_confidence / 100 then
    ⟨AnalyzeOutcome.rejected Stage.confidenceCheck, 0,
     [Stage.confidenceCheck]⟩
  else if signal.risk_reward < env.risk_reward_min - 1/100 then
    ⟨AnalyzeOutcome.rejected Stage.riskRewardCheck, 0,
     [Stage.confidenceCheck, Stage.riskRewardCheck]⟩
  else
    let ai_decision := validate_signal env.ai env.ollama env.recheck_loaded
    let ai_confidence := ai_decision.confidence.getD 0
    let ai_decision_type := ai_decision.decision.getD "HOLD"
    if ai_confidence < 1/2 ∨ ai_decision_type = "HOLD" then
      ⟨AnalyzeOutcome.rejected Stage.advisorCheck, 1,
       [Stage.confidenceCheck, Stage.riskRewardCheck, Stage.advisorCheck]⟩
    else if ai_decision_type ≠ signal.direction then
      ⟨AnalyzeOutcome.rejected Stage.advisorCheck, 1,
       [Stage.confidenceCheck, Stage.riskRewardCheck, Stage.advisorCheck]⟩
    else
      match predict_probability (some env.hour)
          (some (volatility_feature env.sqrtO (closes candles))) with
      | Except.error e =>
        ⟨AnalyzeOutcome.exceptionCaught e, 1,
         [Stage.confidenceCheck, Stage.riskRewardCheck,
          Stage.advisorCheck, Stage.probabilityCheck]⟩
      | Except.ok prob0 =>
        let prob := if 4/5 < ai_confidence
          then min (95/100) (prob0 + 1/20) else prob0
        if prob < env.ml_threshold_setting / 100 then
          ⟨AnalyzeOutcome.rejected Stage.probabilityCheck, 1,
           [Stage.confidenceCheck, Stage.riskRewardCheck,
            Stage.advisorCheck, Stage.probabilityCheck]⟩
        else if env.news_stop then
          ⟨AnalyzeOutcome.rejected Stage.newsCheck, 1,
           [Stage.confidenceCheck, Stage.riskRewardCheck,
            Stage.advisorCheck, Stage.probabilityCheck, Stage.newsCheck]⟩
        else
          let spread_block : Bool :=
            match env.tick with
            | none => false
            | some t =>
              let spread := t.ask - t.bid
              let atr := listMax (lastN (highs candles) 14) -
                listMin (lastN (lows candles) 14)
              decide (0 < atr ∧ 3/10 * atr < spread)
          if spread_block then
            ⟨AnalyzeOutcome.rejected Stage.liquidityCheck, 1,
             [Stage.confidenceCheck, Stage.riskRewardCheck,
              Stage.advisorCheck, Stage.probabilityCheck,
              Stage.newsCheck, Stage.liquidityCheck]⟩
          else
            let base_lot := calculate_lot_size env.risk_per_trade_setting
              env.mt5_account env.symbol_info signal.entry_price
              signal.stop_loss
            let drawdown := if 0 < env.balance then
              (env.balance - env.equity) / env.balance * 100 else 0
            let final_lot := calculate_compounding_lot env.sqrtO base_lot
              env.equity drawdown
            ⟨AnalyzeOutcome.tradeAttempt final_lot
              (execute_trade final_lot), 1,
             [Stage.confidenceCheck, Stage.riskRewardCheck,
              Stage.advisorCheck, Stage.probabilityCheck, Stage.newsCheck,
              Stage.liquidityCheck, Stage.sizingExecution]⟩

/-- `AutoTrader._analyze_market(symbol)`: the MT5 guard, the open-position
and cooldown skips, the candle-quality validations, signal generation, then
`analyze_pipeline`. -/
def analyze_market (symbol : String) (env : MarketEnv) : AnalyzeResult :=
  if ¬ env.mt5_connected then
    ⟨AnalyzeOutcome.haltedDisconnected, 0, []⟩
  else if env.open_position_symbols.contains symbol then
    ⟨AnalyzeOutcome.skippedOpenPosition, 0, []⟩
  else if env.now - env.last_signal_time < 300 then
    ⟨AnalyzeOutcome.skippedCooldown, 0, []⟩
  else
    match env.candles with
    | none => ⟨AnalyzeOutcome.skippedInsufficientData, 0, []⟩
    | some candles =>
      if candles.length < 50 then
        ⟨AnalyzeOutcome.skippedInsufficientData, 0, []⟩
      else if (closes candles).any (fun c => decide (c = 0)) then
        ⟨AnalyzeOutcome.skippedInvalidPrices, 0, []⟩
      else
        match generate_signal env.sqrtO env.conf_rand env.entropy env.choiceO
            env.target_rr candles with
        | none => ⟨AnalyzeOutcome.noTradeSignal, 0, []⟩
        | some signal =>
          if signal.direction = "NEUTRAL" then
            ⟨AnalyzeOutcome.noTradeSignal, 0, []⟩
          else analyze_pipeline env candles signal

/-- The AI-agent state with Ollama down. -/
def aiOff : AIAgentState :=
  { model := "llama3.1:8b", ollama_ready := false, loaded_models := [] }

/-- The AI-agent state with Ollama up and the required model loaded. -/
def aiOn : AIAgentState :=
  { model := "llama3.1:8b", ollama_ready := true,
    loaded_models := ["llama3.1:8b"] }

/-- A market environment on `flatB` whose quant thresholds pass the `sigB`
signal but whose advisory service is down. -/
def envC3 : MarketEnv :=
  { quant_confidence := 40, risk_reward_min := 3/2, ml_threshold_setting := 60,
    target_rr := 3/2, risk_per_trade_setting := 1,
    mt5_connected := true, open_position_symbols := [],
    now := 1000, last_signal_time := 0,
    candles := some flatB,
    sqrtO := sqrtZero, conf_rand := 1, entropy := 1, choiceO := choiceHead,
    ai := aiOff, ollama := OllamaOutcome.requestFailed, recheck_loaded := [],
    hour := 12, news_stop := false, tick := none,
    equity := 10000, balance := 10000,
    mt5_account := none, symbol_info := none }

/-- Same environment with a healthy advisor but the dashboard confidence
threshold raised to 50%, above the 40% confidence of `sigB`. -/
def envC4 : MarketEnv :=
  { quant_confidence := 50, risk_reward_min := 3/2, ml_threshold_setting := 60,
    target_rr := 3/2, risk_per_trade_setting := 1,
    mt5_connected := true, open_position_symbols := [],
    now := 1000, last_signal_time := 0,
    candles := some flatB,
    sqrtO := sqrtZero, conf_rand := 1, entropy := 1, choiceO := choiceHead,
    ai := aiOn, ollama := OllamaOutcome.requestFailed, recheck_loaded := [],
    hour := 12, news_stop := false, tick := none,
    equity := 10000, balance := 10000,
    mt5_account := none, symbol_info := none }

/- ========== THEOREMS ========== -/

/-- C1: `update_positions` with a price map under which both open positions
have crossed their stops.  The code closes the first position (EURUSD: pnl
−0.02 is realized, balance 10000 → 9999.98, the entry is deleted) and then the
dict iterator raises `RuntimeError: dictionary changed size during iteration`,
so the second crossed position (GBPUSD) is never closed and its unrealized pnl
is never recomputed — contradicting the specified behaviour of
`update_positions`. -/
theorem c1_update_positions_raises :
    update_positions engC1 pricesC1 =
      ({ engC1 with positions := [("GBPUSD", posC1b)],
                    paper_balance := 499999/50,
                    paper_equity := 499999/50 },
       some PyErr.runtimeError) := by
  norm_num [update_positions, update_positions_loop, close_position, alookup,
    aupdate, aerase, engC1, posC1a, posC1b, pricesC1,
    (by decide : ¬ ("GBPUSD" = "EURUSD")), (by decide : ¬ ("EURUSD" = "GBPUSD"))]

/- ---------- C9: paper-mode fill into an existing position ---------- -/

/-- Key lemma for `aupdate`: overwriting an existing key is seen by `alookup`. -/
theorem alookup_aupdate {α : Type} (m : List (String × α)) (k : String)
    (v w : α) (h : alookup m k = some w) : alookup (aupdate m k v) k = some v := by
  induction m with
  | nil => simp [alookup] at h
  | cons p rest ih =>
    obtain ⟨k1, v1⟩ := p
    by_cases hk : k1 = k
    · simp [aupdate, alookup, hk]
    · simp only [alookup, hk, if_false] at h
      simp [aupdate, alookup, hk, ih h]

/-- C9: a paper order on a symbol with an existing position merges into it —
the quantity is summed, the entry price is replaced by the unweighted mean of
the old entry and the fill price, and every other field (side, stop, target)
is kept from the original position; the incoming order stop/target are
ignored. -/
theorem c9_paper_merge (eng : ExecutionEngine) (order : Order)
    (slip_sign now : ℚ) (pos : Position)
    (h : alookup eng.positions order.symbol = some pos) :
    alookup (execute_paper_order eng order slip_sign now).1.positions
        order.symbol =
      some { pos with quantity := pos.quantity + order.quantity,
                      entry_price :=
                        (pos.entry_price +
                          (order.price + order.price * (1/10000) * slip_sign)) / 2 } := by
  unfold execute_paper_order
  simp only [h]
  exact alookup_aupdate _ _ _ _ h

/-- Witness for C9 at a concrete engine: quantity 1+3, entry (1 + 2.0002)/2,
side/stop/target of the original position retained. -/
theorem c9_paper_merge_witness :
    alookup (execute_paper_order engC9 ordC9 1 0).1.positions "EURUSD" =
      some { posC9 with quantity := posC9.quantity + ordC9.quantity,
                        entry_price :=
                          (posC9.entry_price +
                            (ordC9.price + ordC9.price * (1/10000) * 1)) / 2 } :=
  c9_paper_merge engC9 ordC9 1 0 posC9 (by with_unfolding_all decide)

/- ---------- C10: closing a symbol with no open position ---------- -/

/-- C10: `close_position` on a symbol with no open position returns `None` and
leaves the whole engine state (position map, balances, history) unchanged. -/
theorem c10_close_position_missing (eng : ExecutionEngine) (symbol : String)
    (price : ℚ) (h : alookup eng.positions symbol = none) :
    close_position eng symbol price = (eng, none) := by
  unfold close_position
  simp [h]

/-- Witness for C10: closing XAUUSD (not held) on the C1 engine changes
nothing. -/
theorem c10_close_position_missing_witness :
    close_position engC1 "XAUUSD" 100 = (engC1, none) :=
  c10_close_position_missing engC1 "XAUUSD" 100 (by with_unfolding_all decide)

/-- `pyRoundInt` never rounds below an integer lower bound. -/
theorem le_pyRoundInt {x : ℚ} {m : ℤ} (h : (m : ℚ) ≤ x) : m ≤ pyRoundInt x := by
  have hf : m ≤ ⌊x⌋ := Int.le_floor.mpr h
  unfold pyRoundInt
  dsimp only
  split
  · exact hf
  · split
    · omega
    · split
      · exact hf
      · omega

/-- `pyRoundInt` never rounds above an integer upper bound. -/
theorem pyRoundInt_le {x : ℚ} {M : ℤ} (h : x ≤ (M : ℚ)) : pyRoundInt x ≤ M := by
  have hfM : ⌊x⌋ ≤ M := by
    have := Int.floor_le_floor h
    simpa using this
  have hsucc : (1:ℚ)/2 ≤ x - ⌊x⌋ → ⌊x⌋ + 1 ≤ M := by
    intro hr
    by_contra hcon
    have hMf : M = ⌊x⌋ := by omega
    have hx : x ≤ (⌊x⌋ : ℚ) := by rw [← hMf]; exact h
    nlinarith
  unfold pyRoundInt
  dsimp only
  split
  · exact hfM
  · split
    · exact hsucc (by linarith)
    · split
      · exact hfM
      · have hr2 : (1:ℚ)/2 ≤ x - ⌊x⌋ := by linarith
        exact hsucc hr2

/-- Rounding is the identity on integers. -/
theorem pyRoundInt_intCast (n : ℤ) : pyRoundInt (n : ℚ) = n := by
  unfold pyRoundInt
  norm_num

/-- `round(x, 2)` is the identity on rationals with denominator dividing 100. -/
theorem pyRound2_eq_self {x : ℚ} (h : ∃ c : ℤ, x * 100 = (c : ℚ)) :
    pyRound2 x = x := by
  obtain ⟨c, hc⟩ := h
  unfold pyRound2
  rw [hc, pyRoundInt_intCast, ← hc]
  field_simp

/-- C2: `predict_probability` raises `UnboundLocalError` on every input — it
can never return a probability, because `prob` is read before it is ever
assigned.  The PROBABILITY_CHECK stage therefore never obtains a float in
[0,1] from it. -/
theorem c2_predict_probability_always_raises
    (feat_hour : Option ℤ) (feat_volatility : Option ℚ) :
    predict_probability feat_hour feat_volatility =
      Except.error PyErr.unboundLocalError := by
  unfold predict_probability
  dsimp only
  by_cases h1 : 8 ≤ feat_hour.getD 0 ∧ feat_hour.getD 0 ≤ 18
  · simp [h1]
  · simp only [if_neg h1]
    by_cases h2 : 3/10 < feat_volatility.getD 0 ∧ feat_volatility.getD 0 < 3
    · simp [h2]
    · by_cases h3 : 5 < feat_volatility.getD 0
      · simp [h2, h3]
      · simp [h2, h3]

/-- A nonempty list of negative values has negative sum. -/
theorem sum_neg_of_all_neg (l : List ℚ) (hne : l ≠ [])
    (h : ∀ x ∈ l, x < 0) : l.sum < 0 := by
  induction l with
  | nil => exact absurd rfl hne
  | cons a t ih =>
    rw [List.sum_cons]
    rcases eq_or_ne t [] with ht | ht
    · subst ht
      simpa using h a (by simp)
    · have ha := h a (by simp)
      have hts := ih ht (fun x hx => h x (List.mem_cons_of_mem a hx))
      linarith

/-- Counterexample to C7 as stated: a backtest with a single winning trade
(pnl +5) records no losing trades, yet `profit_factor` is 5, not 0 — the code
substitutes `gross_loss = 1` when there are no losses. -/
theorem c7_counterexample :
    (calculate_results [5]).losing_trades = 0 ∧
      (calculate_results [5]).profit_factor ≠ 0 := by
  constructor <;> with_unfolding_all decide

/-- C7 (amended): `profit_factor` equals gross profit over |gross loss| when
at least one losing trade was recorded; with trades but no losers the divisor
is replaced by 1 so `profit_factor` equals the gross profit; only with no
trades at all is it 0. -/
theorem c7_profit_factor (pnls : List ℚ) :
    (pnls.filter (fun p => p < 0) ≠ [] →
      (calculate_results pnls).profit_factor =
        (pnls.filter (fun p => 0 < p)).sum / |(pnls.filter (fun p => p < 0)).sum|) ∧
    (pnls ≠ [] → pnls.filter (fun p => p < 0) = [] →
      (calculate_results pnls).profit_factor = (pnls.filter (fun p => 0 < p)).sum) ∧
    (pnls = [] → (calculate_results pnls).profit_factor = 0) := by
  refine ⟨?_, ?_, ?_⟩
  · intro hloss
    have hne : pnls ≠ [] := by
      intro he
      rw [he] at hloss
      simp at hloss
    have hsum : (pnls.filter (fun p => p < 0)).sum < 0 := by
      refine sum_neg_of_all_neg _ hloss ?_
      intro x hx
      have := List.mem_filter.mp hx
      simpa using this.2
    have habs : 0 < |(pnls.filter (fun p => p < 0)).sum| := abs_pos.mpr (ne_of_lt hsum)
    rcases eq_or_ne (pnls.filter (fun p => 0 < p)) [] with hw | hw
    · simp [calculate_results, hne, hloss, habs, hw]
    · simp [calculate_results, hne, hloss, habs, hw]
  · intro hne hloss
    rcases eq_or_ne (pnls.filter (fun p => 0 < p)) [] with hw | hw
    · simp [calculate_results, hne, hloss, hw]
    · simp [calculate_results, hne, hloss, hw]
  · intro he
    simp [calculate_results, he]

/-- Witness for C7 at trades with pnls `[5, -2]`: profit factor is 5/|−2|. -/
theorem c7_profit_factor_witness :
    ([5, -2] : List ℚ).filter (fun p => p < 0) ≠ [] ∧
      (calculate_results [5, -2]).profit_factor =
        (([5, -2] : List ℚ).filter (fun p => 0 < p)).sum /
          |(([5, -2] : List ℚ).filter (fun p => p < 0)).sum| :=
  ⟨by with_unfolding_all decide,
   (c7_profit_factor [5, -2]).1 (by with_unfolding_all decide)⟩

/-- C8: for a coherent instrument (positive step dividing both volume bounds
and expressible in hundredths), the position-sizing operation never lets an
exception escape and, whenever the stop distance is positive, returns a lot
inside [volume_min, volume_max] that is a multiple of volume_step; a zero
stop distance short-circuits to the safe default lot 0.01 (no division is
attempted); and `_execute_trade` places no order when the final lot is ≤ 0. -/
theorem c8_lot_size_normalized (risk_setting entry stop lots : ℚ)
    (acct : AccountInfo) (si : SymbolInfo)
    (hstep : 0 < si.volume_step)
    (hmin : ∃ m : ℤ, si.volume_min = (m : ℚ) * si.volume_step)
    (hmax : ∃ M : ℤ, si.volume_max = (M : ℚ) * si.volume_step)
    (hmm : si.volume_min ≤ si.volume_max)
    (hcent : ∃ c : ℤ, si.volume_step * 100 = (c : ℚ))
    (htv : si.trade_tick_value ≠ 0) (hts : si.trade_tick_size ≠ 0) :
    (0 < |entry - stop| →
      calculate_lot_size_body risk_setting (some acct) (some si) entry stop =
          Except.ok (calculate_lot_size risk_setting (some acct) (some si) entry stop) ∧
        si.volume_min ≤ calculate_lot_size risk_setting (some acct) (some si) entry stop ∧
        calculate_lot_size risk_setting (some acct) (some si) entry stop ≤ si.volume_max ∧
        ∃ k : ℤ, calculate_lot_size risk_setting (some acct) (some si) entry stop =
          (k : ℚ) * si.volume_step) ∧
    (|entry - stop| = 0 →
      calculate_lot_size risk_setting (some acct) (some si) entry stop = 1/100) ∧
    (lots ≤ 0 → execute_trade lots = ExecTradeOutcome.skippedInvalidLot) := by
  obtain ⟨m, hm⟩ := hmin
  obtain ⟨M, hM⟩ := hmax
  obtain ⟨c, hc⟩ := hcent
  refine ⟨?_, ?_, ?_⟩
  · intro hd
    have hdn : ¬ |entry - stop| ≤ 0 := not_le.mpr hd
    have htvs : ¬ (si.trade_tick_value = 0 ∨ si.trade_tick_size = 0) := by
      rintro (h | h)
      · exact htv h
      · exact hts h
    have hsn : ¬ si.volume_step = 0 := ne_of_gt hstep
    set lots0 := acct.equity * (risk_setting / 100) /
      (|entry - stop| / si.trade_tick_size * si.trade_tick_value) with hlots0
    set lots1 := max si.volume_min (min si.volume_max lots0) with hlots1
    set k := pyRoundInt (lots1 / si.volume_step) with hk
    have hbody : calculate_lot_size_body risk_setting (some acct) (some si) entry stop =
        Except.ok (pyRound2 ((k : ℚ) * si.volume_step)) := by
      rw [calculate_lot_size_body]
      dsimp only
      rw [if_neg hdn, if_neg htvs, if_neg hsn]
    have hround : pyRound2 ((k : ℚ) * si.volume_step) = (k : ℚ) * si.volume_step := by
      refine pyRound2_eq_self ⟨k * c, ?_⟩
      push_cast
      rw [mul_assoc, hc]
    have hval : calculate_lot_size risk_setting (some acct) (some si) entry stop =
        (k : ℚ) * si.volume_step := by
      rw [calculate_lot_size, hbody, hround]
    have hmk : m ≤ k := by
      refine le_pyRoundInt ?_
      have h1 : si.volume_min ≤ lots1 := le_max_left _ _
      have h2 : si.volume_min / si.volume_step ≤ lots1 / si.volume_step :=
        (div_le_div_iff_of_pos_right hstep).mpr h1
      calc (m : ℚ) = si.volume_min / si.volume_step := by
            rw [hm]; field_simp
        _ ≤ lots1 / si.volume_step := h2
    have hkM : k ≤ M := by
      refine pyRoundInt_le ?_
      have h1 : lots1 ≤ si.volume_max := max_le hmm (min_le_left _ _)
      have h2 : lots1 / si.volume_step ≤ si.volume_max / si.volume_step :=
        (div_le_div_iff_of_pos_right hstep).mpr h1
      calc lots1 / si.volume_step ≤ si.volume_max / si.volume_step := h2
        _ = (M : ℚ) := by rw [hM]; field_simp
    refine ⟨by rw [hbody, hval, hround], ?_, ?_, ⟨k, hval⟩⟩
    · rw [hval, hm]
      have hq : (m : ℚ) ≤ (k : ℚ) := by exact_mod_cast hmk
      exact mul_le_mul_of_nonneg_right hq hstep.le
    · rw [hval, hM]
      have hq : (k : ℚ) ≤ (M : ℚ) := by exact_mod_cast hkM
      exact mul_le_mul_of_nonneg_right hq hstep.le
  · intro hd
    rw [calculate_lot_size, calculate_lot_size_body]
    dsimp only
    rw [if_pos (le_of_eq hd)]
  · intro hl
    rw [execute_trade, if_pos hl]

/-- Witness for C8: equity 10000 at 1% risk with stop distance 0.01 sizes to
a lot inside the instrument bounds, a zero distance yields 0.01, and a
non-positive lot skips execution. -/
theorem c8_lot_size_normalized_witness :
    (0 < |(11:ℚ)/10 - 109/100| →
      calculate_lot_size_body 1 (some ⟨10000⟩) (some siC8) (11/10) (109/100) =
          Except.ok (calculate_lot_size 1 (some ⟨10000⟩) (some siC8) (11/10) (109/100)) ∧
        siC8.volume_min ≤ calculate_lot_size 1 (some ⟨10000⟩) (some siC8) (11/10) (109/100) ∧
        calculate_lot_size 1 (some ⟨10000⟩) (some siC8) (11/10) (109/100) ≤ siC8.volume_max ∧
        ∃ k : ℤ, calculate_lot_size 1 (some ⟨10000⟩) (some siC8) (11/10) (109/100) =
          (k : ℚ) * siC8.volume_step) ∧
    (|(11:ℚ)/10 - 11/10| = 0 →
      calculate_lot_size 1 (some ⟨10000⟩) (some siC8) (11/10) (11/10) = 1/100) ∧
    ((0:ℚ) ≤ 0 → execute_trade 0 = ExecTradeOutcome.skippedInvalidLot) := by
  have h := c8_lot_size_normalized 1 (11/10) (109/100) 0 ⟨10000⟩ siC8
    (by with_unfolding_all decide) ⟨1, by with_unfolding_all decide⟩
    ⟨1000, by with_unfolding_all decide⟩ (by with_unfolding_all decide)
    ⟨1, by with_unfolding_all decide⟩
    (by with_unfolding_all decide) (by with_unfolding_all decide)
  have h2 := c8_lot_size_normalized 1 (11/10) (11/10) 0 ⟨10000⟩ siC8
    (by with_unfolding_all decide) ⟨1, by with_unfolding_all decide⟩
    ⟨1000, by with_unfolding_all decide⟩ (by with_unfolding_all decide)
    ⟨1, by with_unfolding_all decide⟩
    (by with_unfolding_all decide) (by with_unfolding_all decide)
  exact ⟨h.1, h2.2.1, h.2.2⟩

/-- The default of `lastD` is irrelevant on nonempty lists. -/
theorem lastD_of_ne_nil {α : Type} (l : List α) (d d' : α) (h : l ≠ []) :
    lastD l d = lastD l d' := by
  cases l with
  | nil => exact absurd rfl h
  | cons a t => rw [lastD, lastD, List.getLastD_cons, List.getLastD_cons]

/-- Last element of an append with nonempty right part. -/
theorem lastD_append {α : Type} (l1 l2 : List α) (d : α) (h : l2 ≠ []) :
    lastD (l1 ++ l2) d = lastD l2 d := by
  induction l1 generalizing d with
  | nil => rfl
  | cons a t ih =>
    have hne : t ++ l2 ≠ [] := by
      simp [h]
    simp only [List.cons_append, lastD, List.getLastD_cons]
    calc (t ++ l2).getLastD a = lastD (t ++ l2) a := rfl
      _ = lastD (t ++ l2) d := lastD_of_ne_nil _ _ _ hne
      _ = lastD l2 d := ih d

/-- Last element of a `scanl` is the corresponding `foldl`. -/
theorem lastD_scanl {α β : Type} (f : α → β → α) (a : α) (l : List β) (d : α) :
    lastD (List.scanl f a l) d = l.foldl f a := by
  induction l generalizing a d with
  | nil => rfl
  | cons x xs ih =>
    rw [List.scanl]
    simp only [lastD, List.getLastD_cons]
    exact ih (f a x) a

/-- `scanl` is never empty. -/
theorem scanl_ne_nil {α β : Type} (f : α → β → α) (a : α) (l : List β) :
    List.scanl f a l ≠ [] := by
  cases l <;> simp [List.scanl]

/-- Last element of a `map` over a nonempty list. -/
theorem lastD_map {α β : Type} (f : α → β) (l : List α) (d : α) (h : l ≠ []) :
    lastD (l.map f) (f d) = f (lastD l d) := by
  induction l generalizing d with
  | nil => exact absurd rfl h
  | cons a t ih =>
    rcases eq_or_ne t [] with ht | ht
    · subst ht; rfl
    · simp only [List.map_cons, lastD, List.getLastD_cons]
      exact ih a ht

/-- Last element of a `zipWith` of two lists of equal length. -/
theorem lastD_zipWith {α β γ : Type} (f : α → β → γ) (a : List α) (b : List β)
    (da : α) (db : β) (d : γ) (hlen : a.length = b.length) (hne : a ≠ []) :
    lastD (List.zipWith f a b) d = f (lastD a da) (lastD b db) := by
  induction a generalizing b da db d with
  | nil => exact absurd rfl hne
  | cons x xs ih =>
    match b with
    | [] => simp at hlen
    | y :: ys =>
      rcases eq_or_ne xs [] with hx | hx
      · subst hx
        have hy : ys = [] := by
          have : ys.length = 0 := by simpa using hlen.symm
          exact List.length_eq_zero.mp this
        subst hy
        rfl
      · have hlen2 : xs.length = ys.length := by simpa using hlen
        have hys : ys ≠ [] := by
          intro hy
          subst hy
          exact hx (List.length_eq_zero.mp (by simpa using hlen2))
        have hzne : List.zipWith f xs ys ≠ [] := by
          simp only [ne_eq, List.zipWith_eq_nil_iff]
          push_neg
          exact ⟨hx, hys⟩
        simp only [List.zipWith_cons_cons, lastD, List.getLastD_cons]
        calc (List.zipWith f xs ys).getLastD (f x y)
            = lastD (List.zipWith f xs ys) (f x y) := rfl
          _ = lastD (List.zipWith f xs ys) d := lastD_of_ne_nil _ _ _ hzne
          _ = f (lastD xs x) (lastD ys y) := ih ys x y d hlen2 hx

/- ---------- C6: RSI at the extremes ---------- -/

/-- `wilderSmooth` always contains at least its seed. -/
theorem wilderSmooth_ne_nil (p : ℕ) (seed : ℚ) (xs : List ℚ) :
    wilderSmooth p seed xs ≠ [] := by
  rw [wilderSmooth]
  exact scanl_ne_nil _ _ _

/-- The last Wilder-smoothed value is the fold of the step function. -/
theorem lastD_wilderSmooth (p : ℕ) (seed : ℚ) (xs : List ℚ) (d : ℚ) :
    lastD (wilderSmooth p seed xs) d = xs.foldl (wilderStep p) seed := by
  rw [wilderSmooth, lastD_scanl]

/-- Wilder-folding zeros from a zero seed stays at zero. -/
theorem wilder_foldl_zero (p : ℕ) (xs : List ℚ) (hxs : ∀ x ∈ xs, x = 0) :
    xs.foldl (wilderStep p) 0 = 0 := by
  induction xs with
  | nil => rfl
  | cons x t ih =>
    have hx : x = 0 := hxs x (by simp)
    have hstep : wilderStep p 0 x = 0 := by
      rw [hx, wilderStep]
      simp
    rw [List.foldl_cons, hstep]
    exact ih (fun y hy => hxs y (List.mem_cons_of_mem x hy))

/-- Wilder-folding nonnegative inputs from a nonnegative seed is positive as
soon as the seed or one input is positive (needs `period ≥ 2`). -/
theorem wilder_foldl_pos (p : ℕ) (hp : 2 ≤ p) (xs : List ℚ) (a : ℚ)
    (ha : 0 ≤ a) (hxs : ∀ x ∈ xs, 0 ≤ x)
    (hpos : 0 < a ∨ ∃ x ∈ xs, 0 < x) :
    0 < xs.foldl (wilderStep p) a := by
  have hpq : (2 : ℚ) ≤ (p : ℚ) := by exact_mod_cast hp
  induction xs generalizing a with
  | nil =>
    rcases hpos with h | ⟨x, hx, _⟩
    · exact h
    · simp at hx
  | cons x t ih =>
    have hx0 : 0 ≤ x := hxs x (by simp)
    have hstep_nonneg : 0 ≤ wilderStep p a x := by
      rw [wilderStep]
      apply div_nonneg
      · nlinarith
      · linarith
    have ht : ∀ y ∈ t, 0 ≤ y := fun y hy => hxs y (List.mem_cons_of_mem x hy)
    rw [List.foldl_cons]
    rcases hpos with hpa | ⟨y, hy, hypos⟩
    · refine ih (wilderStep p a x) hstep_nonneg ht (Or.inl ?_)
      rw [wilderStep]
      apply div_pos
      · nlinarith
      · linarith
    · rcases List.mem_cons.mp hy with hyx | hyt
      · have hxpos : 0 < x := hyx ▸ hypos
        refine ih (wilderStep p a x) hstep_nonneg ht (Or.inl ?_)
        rw [wilderStep]
        apply div_pos
        · nlinarith
        · linarith
      · exact ih (wilderStep p a x) hstep_nonneg ht (Or.inr ⟨y, hyt, hypos⟩)

/-- A list of nonnegative values with one positive member has positive sum. -/
theorem sum_pos_of_mem_pos (l : List ℚ) (hall : ∀ x ∈ l, 0 ≤ x)
    (x : ℚ) (hx : x ∈ l) (hpos : 0 < x) : 0 < l.sum := by
  induction l with
  | nil => simp at hx
  | cons a t ih =>
    rw [List.sum_cons]
    have hts : 0 ≤ t.sum :=
      List.sum_nonneg (fun y hy => hall y (List.mem_cons_of_mem a hy))
    rcases List.mem_cons.mp hx with rfl | hxt
    · linarith
    · have := ih (fun y hy => hall y (List.mem_cons_of_mem a hy)) hxt
      have ha := hall a (by simp)
      linarith

/-- C6 (amended): for a series longer than the period (with period ≥ 2, the
default is 14): when every delta is non-negative the average loss stays 0, RS
is mapped to 100, and the RSI reported at the last index is 100 − 100/101 =
10000/101 ≈ 99.01, not 100; when every delta is non-positive and at least one
is negative, the RSI at the last index is 0 as claimed. -/
theorem c6_rsi_extremes (data : List ℚ) (period : ℕ) (l : List ℚ)
    (hp : 2 ≤ period) (hsome : calculate_rsi data period = some l) :
    ((∀ d ∈ npdiff data, 0 ≤ d) → lastD l 0 = 10000/101) ∧
    ((∀ d ∈ npdiff data, d ≤ 0) → (∃ d ∈ npdiff data, d < 0) →
      lastD l 0 = 0) := by
  by_cases hguard : data.length ≤ period
  · rw [calculate_rsi, if_pos hguard] at hsome
    exact absurd hsome (by simp)
  rw [calculate_rsi, if_neg hguard] at hsome
  dsimp only at hsome
  have hlen : period < data.length := not_le.mp hguard
  have hleq := Option.some.inj hsome
  subst hleq
  set deltas := npdiff data with hdeltas
  set gains := deltas.map (fun d => if 0 < d then d else 0) with hgains
  set losses := deltas.map (fun d => if d < 0 then -d else 0) with hlosses
  set avg_gain := List.replicate period (0:ℚ) ++
    wilderSmooth period (mean (gains.take period)) (gains.drop period) with hag
  set avg_loss := List.replicate period (0:ℚ) ++
    wilderSmooth period (mean (losses.take period)) (losses.drop period) with hal
  set rs := List.zipWith (fun g l => if l ≠ 0 then g / l else 100) avg_gain avg_loss
    with hrs
  have hdlen : deltas.length = data.length - 1 := by
    rw [hdeltas, npdiff, List.length_zipWith, List.length_tail]
    omega
  have hglen : gains.length = data.length - 1 := by
    rw [hgains, List.length_map, hdlen]
  have hllen : losses.length = data.length - 1 := by
    rw [hlosses, List.length_map, hdlen]
  have haglen : avg_gain.length = data.length := by
    rw [hag, List.length_append, List.length_replicate, wilderSmooth,
      List.length_scanl, List.length_drop, hglen]
    omega
  have hallen : avg_loss.length = data.length := by
    rw [hal, List.length_append, List.length_replicate, wilderSmooth,
      List.length_scanl, List.length_drop, hllen]
    omega
  have hagne : avg_gain ≠ [] := by
    intro h
    rw [h] at haglen
    simp at haglen
    omega
  have hrslen : rs.length = data.length := by
    rw [hrs, List.length_zipWith, haglen, hallen]
    simp
  have hrsne : rs ≠ [] := by
    intro h
    rw [h] at hrslen
    simp at hrslen
    omega
  have hlast_ag : lastD avg_gain 0 =
      (gains.drop period).foldl (wilderStep period) (mean (gains.take period)) := by
    rw [hag, lastD_append _ _ _ (wilderSmooth_ne_nil _ _ _), lastD_wilderSmooth]
  have hlast_al : lastD avg_loss 0 =
      (losses.drop period).foldl (wilderStep period) (mean (losses.take period)) := by
    rw [hal, lastD_append _ _ _ (wilderSmooth_ne_nil _ _ _), lastD_wilderSmooth]
  have hlast_rs : lastD rs 0 =
      (fun g l => if l ≠ 0 then g / l else (100:ℚ)) (lastD avg_gain 0) (lastD avg_loss 0) := by
    rw [hrs]
    exact lastD_zipWith _ avg_gain avg_loss 0 0 0 (by rw [haglen, hallen]) hagne
  have hlast_l : lastD (rs.map (fun r => (100:ℚ) - 100 / (1 + r))) 0 =
      100 - 100 / (1 + lastD rs 0) := by
    have hmapne : rs.map (fun r => (100:ℚ) - 100 / (1 + r)) ≠ [] := by
      simpa using hrsne
    calc lastD (rs.map (fun r => (100:ℚ) - 100 / (1 + r))) 0
        = lastD (rs.map (fun r => (100:ℚ) - 100 / (1 + r)))
            ((fun r => (100:ℚ) - 100 / (1 + r)) 0) := lastD_of_ne_nil _ _ _ hmapne
      _ = (fun r => (100:ℚ) - 100 / (1 + r)) (lastD rs 0) := lastD_map _ rs 0 hrsne
      _ = 100 - 100 / (1 + lastD rs 0) := rfl
  constructor
  · intro hd
    have hzero : ∀ x ∈ losses, x = 0 := by
      intro x hx
      rw [hlosses] at hx
      obtain ⟨d, hdm, rfl⟩ := List.mem_map.mp hx
      have := hd d hdm
      simp only [if_neg (not_lt.mpr this)]
    have hseed : mean (losses.take period) = 0 := by
      rw [mean, List.sum_eq_zero (fun x hx => hzero x (List.mem_of_mem_take hx))]
      exact zero_div _
    have hfold : (losses.drop period).foldl (wilderStep period)
        (mean (losses.take period)) = 0 := by
      rw [hseed]
      exact wilder_foldl_zero period _ (fun x hx => hzero x (List.mem_of_mem_drop hx))
    rw [hlast_l, hlast_rs, hlast_al, hfold]
    norm_num
  · intro hd hex
    obtain ⟨d0, hd0m, hd0neg⟩ := hex
    have hgzero : ∀ x ∈ gains, x = 0 := by
      intro x hx
      rw [hgains] at hx
      obtain ⟨d, hdm, rfl⟩ := List.mem_map.mp hx
      have := hd d hdm
      simp only [if_neg (not_lt.mpr this)]
    have hlnonneg : ∀ x ∈ losses, 0 ≤ x := by
      intro x hx
      rw [hlosses] at hx
      obtain ⟨d, hdm, rfl⟩ := List.mem_map.mp hx
      have hdd := hd d hdm
      split <;> linarith
    have hlmem : (-d0) ∈ losses ∧ 0 < -d0 := by
      constructor
      · rw [hlosses]
        have : (fun d => if d < 0 then -d else 0) d0 = -d0 := if_pos hd0neg
        rw [← this]
        exact List.mem_map_of_mem _ hd0m
      · linarith
    have hgfold : (gains.drop period).foldl (wilderStep period)
        (mean (gains.take period)) = 0 := by
      have hseed : mean (gains.take period) = 0 := by
        rw [mean, List.sum_eq_zero (fun x hx => hgzero x (List.mem_of_mem_take hx))]
        exact zero_div _
      rw [hseed]
      exact wilder_foldl_zero period _ (fun x hx => hgzero x (List.mem_of_mem_drop hx))
    have hlfold : 0 < (losses.drop period).foldl (wilderStep period)
        (mean (losses.take period)) := by
      have hseednn : 0 ≤ mean (losses.take period) := by
        rw [mean]
        apply div_nonneg
        · exact List.sum_nonneg (fun x hx => hlnonneg x (List.mem_of_mem_take hx))
        · positivity
      refine wilder_foldl_pos period hp _ _ hseednn
        (fun x hx => hlnonneg x (List.mem_of_mem_drop hx)) ?_
      have hsplit := List.take_append_drop period losses
      have : (-d0) ∈ losses.take period ++ losses.drop period := by
        rw [hsplit]
        exact hlmem.1
      rcases List.mem_append.mp this with htk | hdr
      · left
        rw [mean]
        apply div_pos
        · exact sum_pos_of_mem_pos _ (fun x hx => hlnonneg x (List.mem_of_mem_take hx))
            _ htk hlmem.2
        · have : (losses.take period).length = period := by
            rw [List.length_take, hllen]
            omega
          rw [this]
          have hppos : 0 < period := by omega
          exact_mod_cast hppos
      · right
        exact ⟨-d0, hdr, hlmem.2⟩
    rw [hlast_l, hlast_rs, hlast_ag, hlast_al, hgfold]
    have hne0 : List.foldl (wilderStep period) (mean (List.take period losses))
        (List.drop period losses) ≠ 0 := ne_of_gt hlfold
    simp [hne0]

/-- Concrete RSI run on 1..16: every entry is 10000/101. -/
theorem rsi_dataC6_eval :
    calculate_rsi dataC6 14 = some (List.replicate 16 ((10000:ℚ)/101)) := by
  norm_num [calculate_rsi, npdiff, wilderSmooth, wilderStep, mean, dataC6,
    List.scanl, List.replicate]

/-- Concrete RSI run on 16..1: 10000/101 on the zero-padded indices, then 0. -/
theorem rsi_dataC6down_eval :
    calculate_rsi dataC6down 14 =
      some (List.replicate 14 ((10000:ℚ)/101) ++ [0, 0]) := by
  norm_num [calculate_rsi, npdiff, wilderSmooth, wilderStep, mean, dataC6down,
    List.scanl, List.replicate]

/-- Counterexample to C6 as stated: on 1..16 every delta is +1 (non-negative,
average loss 0), yet the computed RSI is 10000/101 ≈ 99.0099 at every index —
never 100. -/
theorem c6_counterexample :
    (∀ d ∈ npdiff dataC6, 0 ≤ d) ∧
      calculate_rsi dataC6 14 = some (List.replicate 16 ((10000:ℚ)/101)) ∧
      ((10000:ℚ)/101) ≠ 100 := by
  refine ⟨?_, rsi_dataC6_eval, ?_⟩
  · with_unfolding_all decide
  · norm_num

/-- Witness for C6 at concrete series: the all-up series 1..16 reports
10000/101 at the last index; the all-down series 16..1 reports 0. -/
theorem c6_rsi_extremes_witness :
    lastD (List.replicate 16 ((10000:ℚ)/101)) 0 = 10000/101 ∧
      lastD (List.replicate 14 ((10000:ℚ)/101) ++ [0, 0]) 0 = 0 :=
  ⟨(c6_rsi_extremes dataC6 14 _ (by norm_num) rsi_dataC6_eval).1
     (by with_unfolding_all decide),
   (c6_rsi_extremes dataC6down 14 _ (by norm_num) rsi_dataC6down_eval).2
     (by with_unfolding_all decide) (by with_unfolding_all decide)⟩

/-- Every regime multiplier is positive. -/
theorem sl_mult_for_pos (regime : MarketRegime) : 0 < sl_mult_for regime := by
  cases regime <;> norm_num [sl_mult_for]

/-- Ordering of the computed price levels when the ATR distance, the regime
multiplier, the target risk:reward and the entropy factor are all positive. -/
theorem signal_levels_ordering (direction : String) (p atr slm trr ent : ℚ)
    (hatr : 0 < atr) (hslm : 0 < slm) (htrr : 0 < trr) (hent : 0 < ent) :
    (direction = "BUY" →
      (signal_levels direction p atr slm trr ent).stop_loss < p ∧
      p < (signal_levels direction p atr slm trr ent).tp1 ∧
      (signal_levels direction p atr slm trr ent).tp1 ≤
        (signal_levels direction p atr slm trr ent).tp2 ∧
      (signal_levels direction p atr slm trr ent).tp2 ≤
        (signal_levels direction p atr slm trr ent).tp3) ∧
    (direction = "SELL" →
      (signal_levels direction p atr slm trr ent).tp3 ≤
        (signal_levels direction p atr slm trr ent).tp2 ∧
      (signal_levels direction p atr slm trr ent).tp2 ≤
        (signal_levels direction p atr slm trr ent).tp1 ∧
      (signal_levels direction p atr slm trr ent).tp1 < p ∧
      p < (signal_levels direction p atr slm trr ent).stop_loss) := by
  have hbase : 0 < atr * slm * ent := by positivity
  have htp2 : 0 < atr * (slm * trr) * ent := by positivity
  constructor
  · intro hdir
    simp only [signal_levels, hdir, if_pos]
    refine ⟨by nlinarith, by nlinarith, by nlinarith, by nlinarith⟩
  · intro hdir
    have hne : direction ≠ "BUY" := by
      rw [hdir]
      with_unfolding_all decide
    simp only [signal_levels, if_neg hne]
    refine ⟨by nlinarith, by nlinarith, by nlinarith, by nlinarith⟩

/-- C5 (amended): every emitted signal satisfies the stop/target ordering
invariant — strictly — provided the ATR at the signal bar is positive, the
configured target risk:reward is positive and the entropy draw is positive
(the spec draws it from [0.98, 1.02]).  When the ATR is 0 (for example on a
flat series) all levels collapse onto the entry price and the invariant
fails, as the counterexample shows. -/
theorem c5_levels_ordering (sqrtO : ℚ → ℚ) (conf_rand entropy : ℚ)
    (choiceO : List String → String) (target_rr : ℚ) (df : List Candle)
    (s : SignalStrength)
    (hs : generate_signal sqrtO conf_rand entropy choiceO target_rr df = some s)
    (hatr : 0 < atr_last df) (htrr : 0 < target_rr) (hent : 0 < entropy) :
    (s.direction = "BUY" → s.stop_loss < s.entry_price ∧
      s.entry_price < s.take_profit_1 ∧
      s.take_profit_1 ≤ s.take_profit_2 ∧
      s.take_profit_2 ≤ s.take_profit_3) ∧
    (s.direction = "SELL" → s.take_profit_3 ≤ s.take_profit_2 ∧
      s.take_profit_2 ≤ s.take_profit_1 ∧
      s.take_profit_1 < s.entry_price ∧
      s.entry_price < s.stop_loss) := by
  rw [generate_signal] at hs
  by_cases hlen : df.length < 100
  · rw [if_pos hlen] at hs
    exact absurd hs (by simp)
  rw [if_neg hlen] at hs
  dsimp only at hs
  rw [ite_eq_iff] at hs
  rcases hs with ⟨-, habs⟩ | ⟨-, hs2⟩
  · exact absurd habs (by simp)
  · have hrec := Option.some.inj hs2
    subst hrec
    dsimp only
    exact signal_levels_ordering _ (lastD (closes df) 0) (atr_last df)
      (sl_mult_for (detect_regime sqrtO df)) target_rr entropy hatr
      (sl_mult_for_pos _) htrr hent

/- ---------- Evaluation toolkit for constant-candle frames ---------- -/

/-- Last element of a nonempty replicated list. -/
theorem lastD_replicate {α : Type} (n : ℕ) (a d : α) (h : n ≠ 0) :
    lastD (List.replicate n a) d = a := by
  induction n generalizing d with
  | zero => exact absurd rfl h
  | succ m ih =>
    rw [List.replicate_succ, lastD, List.getLastD_cons]
    rcases Nat.eq_zero_or_pos m with hm | hm
    · subst hm; rfl
    · exact ih a (by omega)

/-- `arr[-2]` of a replicated list with at least two entries. -/
theorem last2D_replicate {α : Type} (n : ℕ) (a d : α) (h : 2 ≤ n) :
    last2D (List.replicate n a) d = a := by
  rw [last2D, List.length_replicate, List.drop_replicate]
  have h2 : n - (n - 2) = 2 := by omega
  rw [h2]
  rfl

/-- `arr[-k:]` of a replicated list. -/
theorem lastN_replicate {α : Type} (n k : ℕ) (a : α) (hk : k ≤ n) :
    lastN (List.replicate n a) k = List.replicate k a := by
  rw [lastN, List.length_replicate, List.drop_replicate]
  congr 1
  omega

/-- `arr[-k:]` ignores a left part that is at least `k` away from the end. -/
theorem lastN_append {α : Type} (l1 l2 : List α) (k : ℕ) (hk : k ≤ l2.length) :
    lastN (l1 ++ l2) k = lastN l2 k := by
  rw [lastN, lastN, List.length_append]
  have h : l1.length + l2.length - k = l1.length + (l2.length - k) := by omega
  rw [h, List.drop_append]

/-- A `scanl` whose step fixes the seed on a constant list replicates the
seed. -/
theorem scanl_fixpoint {α β : Type} (f : α → β → α) (a : α) (c : β) (n : ℕ)
    (hf : f a c = a) : List.scanl f a (List.replicate n c) = List.replicate (n + 1) a := by
  induction n with
  | zero => rfl
  | succ m ih =>
    rw [List.replicate_succ, List.scanl, hf, ih]
    rfl

/-- A `foldl` whose step fixes the seed on a constant list returns the seed. -/
theorem foldl_fixpoint {α β : Type} (f : α → β → α) (a : α) (c : β) (n : ℕ)
    (hf : f a c = a) : (List.replicate n c).foldl f a = a := by
  induction n with
  | zero => rfl
  | succ m ih =>
    rw [List.replicate_succ, List.foldl_cons, hf, ih]

/-- Cumulative sum of a constant list. -/
theorem foldl_add_replicate (n : ℕ) (c s : ℚ) :
    (List.replicate n c).foldl (fun a b => a + b) s = s + n * c := by
  induction n generalizing s with
  | zero => simp
  | succ m ih =>
    rw [List.replicate_succ, List.foldl_cons, ih]
    push_cast
    ring

/-- Last element of the tail of a `scanl` (the `np.cumsum` shape). -/
theorem lastD_tail_scanl {α β : Type} (f : α → β → α) (a d : α) (l : List β)
    (h : l ≠ []) : lastD ((List.scanl f a l).tail) d = l.foldl f a := by
  cases l with
  | nil => exact absurd rfl h
  | cons x xs =>
    rw [List.scanl]
    simp only [List.tail_cons]
    rw [lastD_scanl, List.foldl_cons]

/-- Last element of a map over `List.range`. -/
theorem lastD_map_range {α : Type} (f : ℕ → α) (n : ℕ) (d : α) (h : n ≠ 0) :
    lastD ((List.range n).map f) d = f (n - 1) := by
  obtain ⟨m, rfl⟩ := Nat.exists_eq_succ_of_ne_zero h
  rw [List.range_succ, List.map_append]
  rw [lastD_append _ _ _ (by simp)]
  rfl

/-- Mean of a nonempty constant list. -/
theorem mean_replicate (n : ℕ) (c : ℚ) (h : n ≠ 0) :
    mean (List.replicate n c) = c := by
  rw [mean, List.sum_replicate, List.length_replicate, nsmul_eq_mul]
  have hn : (n : ℚ) ≠ 0 := Nat.cast_ne_zero.mpr h
  field_simp

/-- The sample variance of a constant window is 0. -/
theorem sampleVariance_replicate (n : ℕ) (c : ℚ) :
    sampleVariance (List.replicate n c) = 0 := by
  rcases Nat.eq_zero_or_pos n with hn | hn
  · subst hn
    norm_num [sampleVariance, mean]
  · have hm := mean_replicate n c (by omega)
    simp [sampleVariance, hm]

/-- A slice `drop k` of a map over `List.range` whose values are constant
from index `k` on. -/
theorem drop_map_range_const {α : Type} (g : ℕ → α) (n k : ℕ) (c : α)
    (hk : k ≤ n) (h : ∀ i, k ≤ i → i < n → g i = c) :
    ((List.range n).map g).drop k = List.replicate (n - k) c := by
  calc ((List.range n).map g).drop k
      = ((List.range (k + (n - k))).map g).drop k := by
        rw [show k + (n - k) = n from by omega]
    _ = (((List.range k) ++ (List.range (n - k)).map (k + ·)).map g).drop k := by
        rw [List.range_add]
    _ = ((List.range k).map g ++ ((List.range (n - k)).map (k + ·)).map g).drop k := by
        rw [List.map_append]
    _ = ((List.range (n - k)).map (k + ·)).map g := by
        simp
    _ = (List.range (n - k)).map (fun i => g (k + i)) := by
        rw [List.map_map]
        rfl
    _ = (List.range (n - k)).map (fun _ => c) := by
        apply List.map_congr_left
        intro i hi
        have hival : i < n - k := List.mem_range.mp hi
        exact h (k + i) (by omega) (by omega)
    _ = List.replicate (n - k) c := by
        rw [show (fun _ : ℕ => c) = Function.const ℕ c from rfl, List.map_const,
          List.length_range]

/-- A map over `List.range` with constant values is a replicate. -/
theorem map_range_const {α : Type} (g : ℕ → α) (n : ℕ) (c : α)
    (h : ∀ i, i < n → g i = c) :
    (List.range n).map g = List.replicate n c := by
  have := drop_map_range_const g n 0 c (by omega) (fun i _ hi => h i hi)
  simpa using this

/-- EMA of a constant series is that series. -/
theorem ema_replicate (n p : ℕ) (c : ℚ) :
    calculate_ema (List.replicate n c) p = List.replicate n c := by
  cases n with
  | zero => rfl
  | succ m =>
    rw [List.replicate_succ, calculate_ema]
    exact scanl_fixpoint _ c c m (by ring)

/-- Deltas of a constant series are zero. -/
theorem npdiff_replicate (n : ℕ) (c : ℚ) :
    npdiff (List.replicate n c) = List.replicate (n - 1) 0 := by
  rw [npdiff, List.tail_replicate, List.zipWith_replicate]
  congr 1
  · omega
  · ring

/-- Mean of replicated zeros (any length, including 0). -/
theorem mean_replicate_zero (k : ℕ) : mean (List.replicate k (0:ℚ)) = 0 := by
  rw [mean, List.sum_replicate, smul_zero, zero_div]

/-- RSI of a constant series longer than the period: the average loss is 0
everywhere, so RS = 100 and RSI = 100 − 100/101 at every index. -/
theorem rsi_replicate (n : ℕ) (c : ℚ) (hn : 14 < n) :
    calculate_rsi (List.replicate n c) 14 =
      some (List.replicate n ((10000:ℚ)/101)) := by
  simp only [calculate_rsi]
  rw [if_neg (by rw [List.length_replicate]; omega)]
  rw [npdiff_replicate, List.map_replicate, List.map_replicate]
  rw [if_neg (by norm_num), if_neg (by norm_num)]
  rw [List.take_replicate, List.drop_replicate]
  have hmean := mean_replicate_zero (min 14 (n - 1))
  rw [hmean]
  have hsm : wilderSmooth 14 0 (List.replicate (n - 1 - 14) (0:ℚ)) =
      List.replicate (n - 14) 0 := by
    rw [wilderSmooth, scanl_fixpoint _ _ _ _ (by rw [wilderStep]; norm_num)]
    congr 1
    omega
  rw [hsm]
  have happ : List.replicate 14 (0:ℚ) ++ List.replicate (n - 14) 0 =
      List.replicate n (0:ℚ) := by
    rw [← List.replicate_add]
    congr 1
    omega
  rw [happ, List.zipWith_replicate, List.map_replicate]
  norm_num

/-- MACD of a constant series: all three lines are zero. -/
theorem macd_replicate (n : ℕ) (c : ℚ) :
    calculate_macd (List.replicate n c) 12 26 9 =
      (List.replicate n 0, List.replicate n 0, List.replicate n 0) := by
  rw [calculate_macd]
  rw [ema_replicate, ema_replicate, List.zipWith_replicate]
  have hz : List.replicate (min n n) (c - c) = List.replicate n (0:ℚ) := by
    simp
  rw [hz, ema_replicate, List.zipWith_replicate]
  simp

/-- Last VWAP value of a constant frame: the typical price. -/
theorem vwap_replicate_last (n : ℕ) (h l c v : ℚ) (hn : n ≠ 0) (hv : v ≠ 0) :
    lastD (calculate_vwap (List.replicate n h) (List.replicate n l)
      (List.replicate n c) (List.replicate n v)) 0 = (h + l + c) / 3 := by
  simp only [calculate_vwap]
  rw [List.zipWith_replicate, List.zipWith_replicate, List.zipWith_replicate]
  simp only [min_self]
  have htail : ∀ (x : ℚ), lastD ((List.scanl (fun a b => a + b) 0
      (List.replicate n x)).tail) (0:ℚ) = (n : ℚ) * x := by
    intro x
    rw [lastD_tail_scanl _ _ _ _ (by
      intro hfalse
      have := congrArg List.length hfalse
      simp [hn] at this)]
    rw [foldl_add_replicate]
    ring
  have hlen1 : ((List.scanl (fun a b => a + b) 0
      (List.replicate n (((h, l).1 + (h, l).2 + c) / 3 * v))).tail).length = n := by
    rw [List.length_tail, List.length_scanl, List.length_replicate]
    omega
  have hlen2 : ((List.scanl (fun a b => a + b) 0
      (List.replicate n v)).tail).length = n := by
    rw [List.length_tail, List.length_scanl, List.length_replicate]
    omega
  rw [lastD_zipWith _ _ _ 0 0 0 (by rw [hlen1, hlen2]) (by
    intro hfalse
    have := congrArg List.length hfalse
    rw [hlen1] at this
    simp [hn] at this)]
  rw [htail, htail]
  have hnq : (n:ℚ) ≠ 0 := Nat.cast_ne_zero.mpr hn
  field_simp
  ring

/-- ATR of a constant frame: zeros up to the period, then the constant true
range. -/
theorem atr_replicate (n : ℕ) (h l c : ℚ) (hn : 14 < n) :
    calculate_atr (List.replicate n h) (List.replicate n l)
      (List.replicate n c) 14 =
      some (List.replicate 14 0 ++
        List.replicate (n - 14) (max (h - l) (max |h - c| |l - c|))) := by
  rw [calculate_atr, if_neg (by rw [List.length_replicate]; omega)]
  dsimp only
  have htr : trueRange (List.replicate n h) (List.replicate n l)
      (List.replicate n c) =
      List.replicate (n - 1) (max (h - l) (max |h - c| |l - c|)) := by
    rw [trueRange, List.tail_replicate, List.tail_replicate,
      List.zipWith_replicate, List.zipWith_replicate]
    have hmin : min (min (n - 1) (n - 1)) n = n - 1 := by omega
    rw [hmin]
  rw [htr, List.take_replicate, List.drop_replicate]
  have h14 : min 14 (n - 1) = 14 := by omega
  rw [h14, mean_replicate 14 _ (by norm_num)]
  have hcount : n - 1 - 14 + 1 = n - 14 := by omega
  rw [wilderSmooth, scanl_fixpoint _ _ _ _ (by
    rw [wilderStep]
    push_cast
    field_simp
    ring), hcount]

/-- The column projections of a constant frame. -/
theorem columns_replicate (n : ℕ) (K : Candle) :
    closes (List.replicate n K) = List.replicate n K.close ∧
    highs (List.replicate n K) = List.replicate n K.high ∧
    lows (List.replicate n K) = List.replicate n K.low ∧
    opens (List.replicate n K) = List.replicate n K.open_price ∧
    volumes (List.replicate n K) = List.replicate n K.volume := by
  refine ⟨?_, ?_, ?_, ?_, ?_⟩ <;>
    simp [closes, highs, lows, opens, volumes, List.map_replicate]

/-- The true range of a bar is never negative. -/
theorem trZero_nonneg (K : Candle) : 0 ≤ trZero K :=
  le_trans (abs_nonneg (K.high - K.close))
    (le_trans (le_max_left _ _) (le_max_right _ _))

/-- `atr_last` on a constant frame of 100 bars is the constant true range. -/
theorem atr_last_replicate (K : Candle) :
    atr_last (List.replicate 100 K) = trZero K := by
  obtain ⟨hcl, hhi, hlo, -, -⟩ := columns_replicate 100 K
  rw [atr_last, hcl, hhi, hlo, atr_replicate 100 _ _ _ (by norm_num)]
  rw [Option.getD_some, lastD_append _ _ _ (by norm_num), lastD_replicate]
  · rfl
  · norm_num

/-- `detect_regime` on a constant frame of 100 bars is RANGING: the ATR ratio
is 1 and the EMA trend difference is 0. -/
theorem detect_regime_replicate (sqrtO : ℚ → ℚ) (K : Candle) :
    detect_regime sqrtO (List.replicate 100 K) = MarketRegime.RANGING := by
  obtain ⟨hcl, hhi, hlo, -, -⟩ := columns_replicate 100 K
  simp only [detect_regime]
  rw [hcl, hhi, hlo, atr_replicate 100 _ _ _ (by norm_num), Option.getD_some]
  rw [ema_replicate, ema_replicate]
  have hacur : lastD (List.replicate 14 (0:ℚ) ++
      List.replicate (100 - 14) (trZero K)) 0 = trZero K := by
    rw [lastD_append _ _ _ (by norm_num), lastD_replicate]
    norm_num
  have haavg : mean (lastN (List.replicate 14 (0:ℚ) ++
      List.replicate (100 - 14) (trZero K)) 50) = trZero K := by
    rw [lastN_append _ _ _ (by norm_num), lastN_replicate _ _ _ (by norm_num),
      mean_replicate _ _ (by norm_num)]
  rw [show (max (K.high - K.low) (max |K.high - K.close| |K.low - K.close|)) =
    trZero K from rfl] at *
  rw [hacur, haavg]
  have htr := trZero_nonneg K
  rw [if_neg ?hc1, if_neg ?hc2, if_neg ?hc3]
  case hc1 =>
    rintro ⟨hlt, -⟩
    nlinarith
  case hc2 =>
    rintro ⟨-, hlt⟩
    exact lt_irrefl _ hlt
  case hc3 =>
    rw [sub_self, zero_div, zero_mul, abs_zero]
    norm_num

/-- On a constant series the rolling standard deviation is `sqrtO 0`, so with
a faithful oracle the three final Bollinger values all equal the constant. -/
theorem bollinger_last_replicate (sqrtO : ℚ → ℚ) (c : ℚ) (hsq : sqrtO 0 = 0) :
    lastD (calculate_bollinger_bands sqrtO (List.replicate 100 c) 20 2).1 0 = c ∧
    lastD (calculate_bollinger_bands sqrtO (List.replicate 100 c) 20 2).2.1 0 = c ∧
    lastD (calculate_bollinger_bands sqrtO (List.replicate 100 c) 20 2).2.2 0 = c := by
  have hstd : rollingApply (List.replicate 100 c) 20
      (fun w => sqrtO (sampleVariance w)) = List.replicate 100 0 := by
    rw [rollingApply, List.length_replicate]
    apply map_range_const
    intro i hi
    by_cases hip : i + 1 < 20
    · rw [if_pos hip]
    · rw [if_neg hip, List.drop_replicate, List.take_replicate,
        sampleVariance_replicate, hsq]
  have hmidlen : (rollingApply (List.replicate 100 c) 20 mean).length = 100 := by
    rw [rollingApply]
    simp
  have hmidne : rollingApply (List.replicate 100 c) 20 mean ≠ [] := by
    intro hfalse
    rw [hfalse] at hmidlen
    simp at hmidlen
  have hmid_last : lastD (rollingApply (List.replicate 100 c) 20 mean) 0 = c := by
    rw [rollingApply, List.length_replicate,
      lastD_map_range _ _ _ (by norm_num)]
    rw [if_neg (by norm_num), List.drop_replicate, List.take_replicate]
    rw [mean_replicate _ _ (by norm_num)]
  refine ⟨?_, hmid_last, ?_⟩
  · simp only [calculate_bollinger_bands]
    rw [hstd, lastD_zipWith _ _ _ 0 0 0 (by rw [hmidlen]; simp) hmidne,
      hmid_last, lastD_replicate _ _ _ (by norm_num)]
    ring
  · simp only [calculate_bollinger_bands]
    rw [hstd, lastD_zipWith _ _ _ 0 0 0 (by rw [hmidlen]; simp) hmidne,
      hmid_last, lastD_replicate _ _ _ (by norm_num)]
    ring

/-- `generate_signal` on a constant 100-bar frame whose bar has its open at
the close, its high/low symmetric about the close, and nonzero volume (with a
confidence draw of 1): price sits exactly on the VWAP (scoring −1) and the
zero-delta RSI of 10000/101 reads overbought (scoring −1), every other factor
is silent, so a SELL signal of confidence 0.4 is emitted with levels built
from the constant true range.  The square-root oracle must be faithful at 0,
the only point where it is consulted. -/
theorem generate_signal_replicate (sqrtO : ℚ → ℚ)
    (choiceO : List String → String) (entropy target_rr : ℚ) (K : Candle)
    (hsq : sqrtO 0 = 0) (ho : K.open_price = K.close) (hhc : K.close ≤ K.high)
    (hlc : K.low ≤ K.close) (htyp : K.high + K.low = 2 * K.close)
    (hv : K.volume ≠ 0) :
    generate_signal sqrtO 1 entropy choiceO target_rr (List.replicate 100 K) =
      some { direction := "SELL", confidence := 2/5, entry_price := K.close,
             stop_loss :=
               (signal_levels "SELL" K.close (trZero K) (3/2) target_rr entropy).stop_loss,
             take_profit_1 :=
               (signal_levels "SELL" K.close (trZero K) (3/2) target_rr entropy).tp1,
             take_profit_2 :=
               (signal_levels "SELL" K.close (trZero K) (3/2) target_rr entropy).tp2,
             take_profit_3 :=
               (signal_levels "SELL" K.close (trZero K) (3/2) target_rr entropy).tp3,
             risk_reward :=
               (signal_levels "SELL" K.close (trZero K) (3/2) target_rr entropy).risk_reward,
             strategy := choiceO ["Oversold Mean Revert", "Smart Money Flow"],
             reasoning := ["Regime: RANGING", "✓ Price below VWAP (Bearish Bias)",
               "✓ RSI Overbought", "Risk:Reward = 1:",
               "Strat: " ++ choiceO ["Oversold Mean Revert", "Smart Money Flow"]] } := by
  obtain ⟨hcl, hhi, hlo, hop, hvol⟩ := columns_replicate 100 K
  obtain ⟨hbu, hbm, hbl⟩ := bollinger_last_replicate sqrtO K.close hsq
  have hvwap := vwap_replicate_last 100 K.high K.low K.close K.volume
    (by norm_num) hv
  have htypc : (K.high + K.low + K.close) / 3 = K.close := by
    rw [htyp]; ring
  have hpr : pyRound2 (2/5) = 2/5 := pyRound2_eq_self ⟨40, by norm_num⟩
  simp only [generate_signal]
  rw [if_neg (by rw [List.length_replicate]; norm_num)]
  rw [hcl, hhi, hlo, hop, hvol]
  rw [detect_regime_replicate, ema_replicate, ema_replicate, ema_replicate,
    rsi_replicate _ _ (by norm_num), macd_replicate, atr_last_replicate,
    hvwap, htypc]
  rw [Option.getD_some]
  rw [lastD_replicate 100 K.close 0 (by norm_num),
    last2D_replicate 100 K.close 0 (by norm_num),
    lastD_replicate 100 K.open_price 0 (by norm_num),
    last2D_replicate 100 K.open_price 0 (by norm_num),
    lastD_replicate 100 K.high 0 (by norm_num),
    lastD_replicate 100 K.low 0 (by norm_num),
    lastD_replicate 100 ((10000:ℚ)/101) 0 (by norm_num)]
  rw [hbu, hbl]
  rw [ho]
  have habs0 : |K.close - K.close| = 0 := by rw [sub_self, abs_zero]
  have hpin1 : ¬ (2 * |K.close - K.close| < min K.close K.close - K.low ∧
      K.high - max K.close K.close < |K.close - K.close|) := by
    rintro ⟨-, h2⟩
    rw [habs0, max_self] at h2
    linarith
  have hpin2 : ¬ (2 * |K.close - K.close| < K.high - max K.close K.close ∧
      min K.close K.close - K.low < |K.close - K.close|) := by
    rintro ⟨-, h2⟩
    rw [habs0, min_self] at h2
    linarith
  rw [if_neg hpin1, if_neg hpin2]
  norm_num [MarketRegime.value, sl_mult_for, hpr, lastD_replicate,
    last2D_replicate]
  refine ⟨fun hfalse => absurd hfalse (by simp), by simp, ?_⟩
  rw [if_neg (by simp)]

/-- Counterexample to C5 as stated: on 100 flat bars the generator emits a
SELL signal whose stop and every take profit coincide with the entry price
(ATR = 0), so the required strict ordering
take_profit_1 < entry_price < stop_loss fails. -/
theorem c5_counterexample :
    generate_signal sqrtZero 1 1 choiceHead (3/2) flatA = some sigA ∧
      sigA.direction = "SELL" ∧
      ¬ (sigA.take_profit_1 < sigA.entry_price ∧
         sigA.entry_price < sigA.stop_loss) := by
  refine ⟨?_, by with_unfolding_all decide, by with_unfolding_all decide⟩
  rw [show flatA = List.replicate 100 candleA from rfl]
  rw [generate_signal_replicate sqrtZero choiceHead 1 (3/2) candleA rfl rfl
    (by norm_num [candleA]) (by norm_num [candleA]) (by norm_num [candleA])
    (by norm_num [candleA])]
  simp only [Option.some.injEq, SignalStrength.mk.injEq, sigA, candleA,
    signal_levels, trZero, choiceHead]
  norm_num
  simp

/-- Concrete run of the generator on `flatB`. -/
theorem generate_signal_flatB :
    generate_signal sqrtZero 1 1 choiceHead (3/2) flatB = some sigB := by
  rw [show flatB = List.replicate 100 candleB from rfl]
  rw [generate_signal_replicate sqrtZero choiceHead 1 (3/2) candleB rfl rfl
    (by norm_num [candleB]) (by norm_num [candleB]) (by norm_num [candleB])
    (by norm_num [candleB])]
  simp only [Option.some.injEq, SignalStrength.mk.injEq, sigB, candleB,
    signal_levels, trZero, choiceHead]
  norm_num
  refine ⟨by simp, ?_, by simp⟩
  have hne : (("SELL":String) = "BUY") = False := by simp
  simp only [hne, if_false]
  have h1 : |(11:ℚ)/2 - 10| = 9/2 := by
    rw [abs_of_neg (by norm_num)]
    norm_num
  have h2 : |(10:ℚ) - 13| = 3 := by
    rw [abs_of_neg (by norm_num)]
    norm_num
  rw [if_neg (by norm_num), h1, h2]
  norm_num

/-- The ATR used for the `flatB` levels is 2. -/
theorem atr_last_flatB : atr_last flatB = 2 := by
  rw [show flatB = List.replicate 100 candleB from rfl, atr_last_replicate]
  with_unfolding_all decide

/-- Witness for C5 on `flatB`: the emitted SELL signal (entry 10, stop 13,
targets 6.625 / 5.5 / 3.25) satisfies the (mirrored) strict ordering. -/
theorem c5_levels_ordering_witness :
    sigB.take_profit_3 ≤ sigB.take_profit_2 ∧
      sigB.take_profit_2 ≤ sigB.take_profit_1 ∧
      sigB.take_profit_1 < sigB.entry_price ∧
      sigB.entry_price < sigB.stop_loss :=
  (c5_levels_ordering sqrtZero 1 1 choiceHead (3/2) flatB sigB
    generate_signal_flatB
    (by rw [atr_last_flatB]; norm_num) (by norm_num) (by norm_num)).2
    (by with_unfolding_all decide)

/-- Every rejection of the pipeline carries the in-order stage prefix ending
at the failing stage, and the advisory service was called exactly when the
failing stage is at or after the advisor stage. -/
theorem analyze_pipeline_short_circuit (env : MarketEnv)
    (candles : List Candle) (signal : SignalStrength) (st : Stage) :
    (analyze_pipeline env candles signal).outcome =
      AnalyzeOutcome.rejected st →
    (analyze_pipeline env candles signal).stages_run = stagesUpTo st ∧
    ((analyze_pipeline env candles signal).advisor_calls = 0 ↔
      st = Stage.confidenceCheck ∨ st = Stage.riskRewardCheck) := by
  unfold analyze_pipeline
  dsimp only
  repeat' split
  all_goals intro h
  all_goals
    first
    | (injection h with h2; subst h2; exact ⟨rfl, by decide⟩)
    | simp at h

/-- C3: any signal that reaches the advisor stage while the advisory service
is not ready (`ollama_ready` false) is rejected at ADVISOR_CHECK with exactly
one advisory call and no later stage ever runs, whatever the signal's score
or confidence: `validate_signal` returns the HOLD/0.0 dictionary, so the
`ai_confidence < 0.5 or decision == 'HOLD'` gate always fires. -/
theorem c3_advisor_not_ready (symbol : String) (env : MarketEnv)
    (candles : List Candle) (s : SignalStrength)
    (hmt5 : env.mt5_connected = true)
    (hpos : symbol ∉ env.open_position_symbols)
    (hcool : ¬ env.now - env.last_signal_time < 300)
    (hcand : env.candles = some candles)
    (hlen : ¬ candles.length < 50)
    (hvalid : (closes candles).any (fun c => decide (c = 0)) = false)
    (hsig : generate_signal env.sqrtO env.conf_rand env.entropy env.choiceO
      env.target_rr candles = some s)
    (hdir : s.direction ≠ "NEUTRAL")
    (hconf : ¬ s.confidence < env.quant_confidence / 100)
    (hrr : ¬ s.risk_reward < env.risk_reward_min - 1/100)
    (hready : env.ai.ollama_ready = false) :
    analyze_market symbol env =
      ⟨AnalyzeOutcome.rejected Stage.advisorCheck, 1,
       [Stage.confidenceCheck, Stage.riskRewardCheck, Stage.advisorCheck]⟩ := by
  norm_num [analyze_market, analyze_pipeline, validate_signal, hmt5, hpos,
    hcool, hcand, hlen, hvalid, hsig, hdir, hconf, hrr, hready]

/-- C4: (a) whenever the pipeline is reached and the signal's confidence is
below the configured minimum, the call rejects at CONFIDENCE_CHECK having run
only that stage and having made zero advisory calls; (b) in general every
rejection's stage trace is exactly the in-order prefix ending at the failing
stage, and the advisory service was called iff the failure is at or after the
advisor stage (in particular never for a confidence or risk:reward failure). -/
theorem c4_confidence_short_circuit :
    (∀ (symbol : String) (env : MarketEnv) (candles : List Candle)
        (s : SignalStrength),
      env.mt5_connected = true →
      symbol ∉ env.open_position_symbols →
      ¬ env.now - env.last_signal_time < 300 →
      env.candles = some candles →
      ¬ candles.length < 50 →
      (closes candles).any (fun c => decide (c = 0)) = false →
      generate_signal env.sqrtO env.conf_rand env.entropy env.choiceO
        env.target_rr candles = some s →
      s.direction ≠ "NEUTRAL" →
      s.confidence < env.quant_confidence / 100 →
      analyze_market symbol env =
        ⟨AnalyzeOutcome.rejected Stage.confidenceCheck, 0,
         [Stage.confidenceCheck]⟩) ∧
    (∀ (symbol : String) (env : MarketEnv) (st : Stage),
      (analyze_market symbol env).outcome = AnalyzeOutcome.rejected st →
      (analyze_market symbol env).stages_run = stagesUpTo st ∧
      ((analyze_market symbol env).advisor_calls = 0 ↔
        st = Stage.confidenceCheck ∨ st = Stage.riskRewardCheck)) := by
  constructor
  · intro symbol env candles s hmt5 hpos hcool hcand hlen hvalid hsig hdir
      hconf
    norm_num [analyze_market, analyze_pipeline, hmt5, hpos, hcool, hcand,
      hlen, hvalid, hsig, hdir, hconf]
  · intro symbol env st
    unfold analyze_market
    repeat' split
    all_goals
      first
      | (intro h; exact absurd h (by simp))
      | exact analyze_pipeline_short_circuit _ _ _ _

/-- No close of `flatB` is zero. -/
theorem closes_flatB_no_zero :
    (closes flatB).any (fun c => decide (c = 0)) = false := by
  have h : closes flatB = List.replicate 100 (10:ℚ) := by
    simp [flatB, closes, candleB]
  rw [h]
  simp

/-- Witness for C3: on `envC3` (signal `sigB`, confidence 0.4 ≥ 0.4, RR 1.5 ≥
1.49, Ollama down) the call rejects at the advisor stage after one advisory
call. -/
theorem c3_advisor_not_ready_witness :
    analyze_market "EURUSD" envC3 =
      ⟨AnalyzeOutcome.rejected Stage.advisorCheck, 1,
       [Stage.confidenceCheck, Stage.riskRewardCheck, Stage.advisorCheck]⟩ :=
  c3_advisor_not_ready "EURUSD" envC3 flatB sigB rfl (by simp [envC3])
    (by norm_num [envC3]) rfl (by norm_num [flatB]) closes_flatB_no_zero
    generate_signal_flatB (by with_unfolding_all decide)
    (by norm_num [sigB, envC3]) (by norm_num [sigB, envC3]) rfl

/-- Witness for C4: on `envC4` (signal `sigB` with confidence 0.4 against a
50% minimum) the call rejects at CONFIDENCE_CHECK, its stage trace is the
one-stage prefix and the advisory service was never called. -/
theorem c4_confidence_short_circuit_witness :
    analyze_market "EURUSD" envC4 =
      ⟨AnalyzeOutcome.rejected Stage.confidenceCheck, 0,
       [Stage.confidenceCheck]⟩ ∧
    (analyze_market "EURUSD" envC4).stages_run =
      stagesUpTo Stage.confidenceCheck ∧
    (analyze_market "EURUSD" envC4).advisor_calls = 0 := by
  have h1 := c4_confidence_short_circuit.1 "EURUSD" envC4 flatB sigB rfl
    (by simp [envC4])
    (by norm_num [envC4]) rfl (by norm_num [flatB]) closes_flatB_no_zero
    generate_signal_flatB (by with_unfolding_all decide)
    (by norm_num [sigB, envC4])
  have h2 := c4_confidence_short_circuit.2 "EURUSD" envC4
    Stage.confidenceCheck (by rw [h1])
  exact ⟨h1, h2.1, by rw [h1]⟩

end AQ
